import Mathlib

/-!
Shallow embedding of the per-frame game-state engine of the camera-game
repository (class `RunnerGameState`, src/unnamed/part_005), together with the
supporting type declarations (src/unnamed/part_003, `types.ts`).

Conventions of the embedding:
* JavaScript `number` is modelled by `ℚ` (all constants in the source are
  exact decimals); counters that the source only ever increments from 0
  (`score`, `level`, `nextObjectId`) are modelled by `Nat`, while `lives`,
  which the source decrements without a floor, is modelled by `Int`.
* `Math.random()`-derived choices are passed in as explicit parameters
  (`SpawnChoice`, the per-particle color roll), making each operation a pure
  function of state, inputs and the sampled randomness.
* The particle burst velocities `cos(angle)*4` and `sin(angle)*4 - 3` are
  transcendental reals; they are supplied through the `vel` parameter and
  never inspected by the engine logic, exactly as in the source, where they
  are written once at spawn time and only used for cosmetic motion.
* The in-place array mutations of the source become explicit list updates;
  the per-object collision loop becomes `runObjects`, a left-to-right
  traversal threading the mutable engine state, exactly mirroring iteration
  order (later objects observe invincibility set by an earlier crash in the
  same frame, as in the source).
-/

namespace CameraGame

/-- `RunnerObjectType` from types.ts: `'coin' | 'gem' | 'barrier' | 'rock'`. -/
inductive RunnerObjectType where
  | coin
  | gem
  | barrier
  | rock
  deriving DecidableEq

/-- `RunnerObject` from types.ts, plus the `active` pooling flag that
`RunnerGameState` (part_005) reads and writes on every pooled object. -/
structure RunnerObject where
  id : Nat
  type : RunnerObjectType
  lane : Fin 3
  z : ℚ
  isCollectible : Bool
  collected : Bool
  size : ℚ
  active : Bool
  deriving DecidableEq

/-- `RunnerParticle` from types.ts, plus the `active` pooling flag. -/
structure RunnerParticle where
  x : ℚ
  y : ℚ
  vx : ℚ
  vy : ℚ
  life : ℚ
  color : String
  size : ℚ
  active : Bool
  deriving DecidableEq

/-- `RunnerPlayerState` from types.ts. -/
structure RunnerPlayerState where
  lane : Fin 3
  targetLane : Fin 3
  laneProgress : ℚ
  isJumping : Bool
  jumpProgress : ℚ
  isInvincible : Bool
  invincibleUntil : ℚ
  deriving DecidableEq

/-- `RunnerGameConfig` from types.ts. -/
structure RunnerGameConfig where
  speed : ℚ
  baseSpeed : ℚ
  spawnInterval : ℚ
  lives : Int
  maxLives : Int
  level : Nat
  obstacleChance : ℚ
  canvasWidth : ℚ
  canvasHeight : ℚ
  deriving DecidableEq

/-- `RunnerUpdateResult` from part_005. -/
structure RunnerUpdateResult where
  collected : List RunnerObject
  crashed : List RunnerObject
  gameOver : Bool
  leveledUp : Bool
  deriving DecidableEq

/-- The fields of class `RunnerGameState` (part_005). -/
structure RunnerGameState where
  score : Nat
  player : RunnerPlayerState
  objects : List RunnerObject
  particles : List RunnerParticle
  config : RunnerGameConfig
  playerX : ℚ
  playerXSmooth : ℚ
  playerBodyWidth : ℚ
  nextObjectId : Nat
  lastSpawnTime : ℚ
  lastLevelScore : Nat
  jumpStartTime : ℚ
  deriving DecidableEq

namespace RunnerGameState

/-- `LEVEL_UP_SCORE = 500`. -/
def LEVEL_UP_SCORE : Nat := 500

/-- `JUMP_DURATION = 700` ms. -/
def JUMP_DURATION : ℚ := 700

/-- `MAX_PARTICLES = 50`. -/
def MAX_PARTICLES : Nat := 50

/-- `MAX_OBJECTS = 20`. -/
def MAX_OBJECTS : Nat := 20

/-- The constructor of `RunnerGameState`: spreads `DEFAULT_RUNNER_CONFIG`
(types.ts) into the config and starts the player centered in lane 1. -/
def init (canvasWidth canvasHeight : ℚ) : RunnerGameState :=
  { score := 0
    player :=
      { lane := 1, targetLane := 1, laneProgress := 0, isJumping := false
        jumpProgress := 0, isInvincible := false, invincibleUntil := 0 }
    objects := []
    particles := []
    config :=
      { speed := 1, baseSpeed := 1, spawnInterval := 1500, lives := 3
        maxLives := 3, level := 1, obstacleChance := 0.2
        canvasWidth := canvasWidth, canvasHeight := canvasHeight }
    playerX := 0.5
    playerXSmooth := 0.5
    playerBodyWidth := 0.12
    nextObjectId := 0
    lastSpawnTime := 0
    lastLevelScore := 0
    jumpStartTime := 0 }

/-- `updateDimensions(width, height)`. -/
def updateDimensions (s : RunnerGameState) (width height : ℚ) : RunnerGameState :=
  { s with config := { s.config with canvasWidth := width, canvasHeight := height } }

/-- `setPlayerPosition(rawCenterX, bodyWidth, smoothedCenterX)`: stores the raw
position for collision, the smoothed position for rendering, the body width
bounded to `[0.06, 0.20]` after the 80% scale-down, and the derived lane. -/
def setPlayerPosition (s : RunnerGameState) (rawCenterX bodyWidth smoothedCenterX : ℚ) :
    RunnerGameState :=
  let newLane : Fin 3 :=
    if rawCenterX < 0.33 then 0 else if rawCenterX > 0.66 then 2 else 1
  { s with
    playerX := rawCenterX
    playerXSmooth := smoothedCenterX
    playerBodyWidth := max 0.06 (min 0.20 (bodyWidth * 0.8))
    player := { s.player with lane := newLane, targetLane := newLane } }

/-- `triggerJump(now)`: a no-op while already jumping. -/
def triggerJump (s : RunnerGameState) (now : ℚ) : RunnerGameState :=
  if s.player.isJumping then s
  else
    { s with
      player := { s.player with isJumping := true, jumpProgress := 0 }
      jumpStartTime := now }

/-- `getLaneXNormalized(lane)`: left = 0.2, center = 0.5, right = 0.8. -/
def getLaneXNormalized (lane : Fin 3) : ℚ :=
  0.2 + (lane : ℚ) * 0.3

/-- The outcomes of the `Math.random()` draws inside `spawnObject`:
`isObstacle` is `random < obstacleChance`, `typeRoll` the 50%/80% subtype
draw, and `lane` the uniform draw `Math.floor(random * 3)`. -/
structure SpawnChoice where
  isObstacle : Bool
  typeRoll : Bool
  lane : Fin 3

/-- `array.find(o => !o.active)` followed by in-place reinitialisation: walk
the pool left to right, apply `f` to the first inactive slot, and report
`none` when every slot is active. -/
def reuseFirstInactive {α : Type} (isActive : α → Bool) (f : α → α) :
    List α → Option (List α)
  | [] => none
  | x :: rest =>
    if !isActive x then some (f x :: rest)
    else (reuseFirstInactive isActive f rest).map (fun l => x :: l)

/-- The object state `spawnObject` writes into the acquired slot (or pushes):
type and lane from the random draws, a fresh id, depth 0, unresolved,
active. -/
def freshObject (s : RunnerGameState) (c : SpawnChoice) : RunnerObject :=
  let ty : RunnerObjectType :=
    if c.isObstacle then (if c.typeRoll then .barrier else .rock)
    else (if c.typeRoll then .coin else .gem)
  let size : ℚ := if c.isObstacle then 100 else 70
  { id := s.nextObjectId, type := ty, lane := c.lane, z := 0
    isCollectible := !c.isObstacle, collected := false, size := size
    active := true }

/-- `spawnObject()` (part_005, lines 208-245): pick type/lane from the random
draws, then reuse the first inactive pooled slot, else append while under
`MAX_OBJECTS`, else silently skip. -/
def spawnObject (s : RunnerGameState) (c : SpawnChoice) : RunnerGameState :=
  let fresh : RunnerObject := freshObject s c
  match reuseFirstInactive (fun o => o.active) (fun _ => fresh) s.objects with
  | some objs => { s with objects := objs, nextObjectId := s.nextObjectId + 1 }
  | none =>
    if s.objects.length < MAX_OBJECTS then
      { s with objects := s.objects ++ [fresh], nextObjectId := s.nextObjectId + 1 }
    else s

/-- One iteration of the burst loop in `spawnCollectParticles`: reuse the
first inactive particle slot, else append while under `MAX_PARTICLES`, else
skip. `v` carries the velocity pair `(cos(angle)*4, sin(angle)*4 - 3)`. -/
def spawnOneParticle (s : RunnerGameState) (x : ℚ) (color : String) (v : ℚ × ℚ) :
    RunnerGameState :=
  let fresh : RunnerParticle :=
    { x := x, y := s.config.canvasHeight * 0.75, vx := v.1, vy := v.2
      life := 1, color := color, size := 8, active := true }
  match reuseFirstInactive (fun p => p.active) (fun _ => fresh) s.particles with
  | some ps => { s with particles := ps }
  | none =>
    if s.particles.length < MAX_PARTICLES then
      { s with particles := s.particles ++ [fresh] }
    else s

/-- `spawnCollectParticles(obj)` (part_005, lines 247-281): a burst of 10
particles at the object's lane position; `colorRoll i` is the random color
index draw for particle `i`, `vel i` its angle-derived velocity pair. -/
def spawnCollectParticles (s : RunnerGameState) (obj : RunnerObject)
    (colorRoll : Nat → Nat) (vel : Nat → ℚ × ℚ) : RunnerGameState :=
  let x := getLaneXNormalized obj.lane * s.config.canvasWidth
  let colors : List String :=
    if obj.type = .gem then ["#FF69B4", "#9B59B6", "#3498DB", "#2ECC71"]
    else ["#FFD700", "#FFA500", "#FFFF00"]
  (List.range 10).foldl
    (fun st i =>
      spawnOneParticle st x (colors.getD (colorRoll i % colors.length) "#FFD700") (vel i))
    s

/-- One iteration of the loop in `updateParticles`: advance position, apply
gravity, decay life by 0.035, and deactivate at `life ≤ 0`. -/
def stepParticle (p : RunnerParticle) : RunnerParticle :=
  if !p.active then p
  else
    let p' : RunnerParticle :=
      { p with x := p.x + p.vx, y := p.y + p.vy, vy := p.vy + 0.2
               life := p.life - 0.035 }
    if p'.life ≤ 0 then { p' with active := false } else p'

/-- `updateParticles()` (part_005, lines 289-303). -/
def updateParticles (s : RunnerGameState) : RunnerGameState :=
  { s with particles := s.particles.map stepParticle }

/-- `levelUp()` (part_005, lines 305-310). -/
def levelUp (s : RunnerGameState) : RunnerGameState :=
  { s with config :=
      { s.config with
        level := s.config.level + 1
        speed := s.config.speed + 0.08
        spawnInterval := max 900 (s.config.spawnInterval - 80)
        obstacleChance := min 0.35 (s.config.obstacleChance + 0.03) } }

/-- `reset()` (part_005, lines 312-338). `jumpStartTime` is not reset by the
source and is therefore kept. -/
def reset (s : RunnerGameState) : RunnerGameState :=
  { score := 0
    objects := []
    particles := []
    lastSpawnTime := 0
    lastLevelScore := 0
    nextObjectId := 0
    playerX := 0.5
    playerXSmooth := 0.5
    playerBodyWidth := 0.12
    config :=
      { s.config with
        speed := s.config.baseSpeed
        level := 1
        lives := s.config.maxLives
        spawnInterval := 1500
        obstacleChance := 0.2 }
    player :=
      { lane := 1, targetLane := 1, laneProgress := 0, isJumping := false
        jumpProgress := 0, isInvincible := false, invincibleUntil := 0 }
    jumpStartTime := s.jumpStartTime }

/-- `collisionZoneStart = 0.55`. -/
def collisionZoneStart : ℚ := 0.55

/-- `collisionZoneEnd = 0.75`. -/
def collisionZoneEnd : ℚ := 0.75

/-- The judgement taken once a horizontal overlap inside the band has been
established (part_005, lines 166-192): collect a collectible, pass through
while invincible, dodge inside the jump window, otherwise crash. -/
def collideObject (now : ℚ) (colorRoll : Nat → Nat) (vel : Nat → ℚ × ℚ)
    (sr : RunnerGameState × RunnerUpdateResult) (obj : RunnerObject) :
    (RunnerGameState × RunnerUpdateResult) × RunnerObject :=
  let (s, r) := sr
  if obj.isCollectible then
    let obj := { obj with collected := true }
    let s := { s with score := s.score + (if obj.type = .gem then 10 else 1) }
    let r := { r with collected := r.collected ++ [obj] }
    let s := spawnCollectParticles s obj colorRoll vel
    ((s, r), obj)
  else if s.player.isInvincible = false then
    if s.player.isJumping = true ∧ 0.08 < s.player.jumpProgress ∧
        s.player.jumpProgress < 0.92 then
      ((s, r), obj)
    else
      let obj := { obj with collected := true }
      let cfg' := { s.config with lives := s.config.lives - 1 }
      let pl' :=
        { s.player with isInvincible := true, invincibleUntil := now + 1500 }
      let s := { s with config := cfg', player := pl' }
      let r := { r with crashed := r.crashed ++ [obj] }
      let r := if s.config.lives ≤ (0 : Int) then { r with gameOver := true } else r
      ((s, r), obj)
  else ((s, r), obj)

/-- The body of the per-object collision loop (part_005, lines 133-193) for a
single object: move it by `speed`, deactivate past `z > 1.15`, and inside the
band check the horizontal overlap and judge it with `collideObject`.
Returns the updated engine state and result alongside the updated object. -/
def stepObject (now speed : ℚ) (colorRoll : Nat → Nat) (vel : Nat → ℚ × ℚ)
    (sr : RunnerGameState × RunnerUpdateResult) (obj : RunnerObject) :
    (RunnerGameState × RunnerUpdateResult) × RunnerObject :=
  let (s, r) := sr
  if obj.active = false then ((s, r), obj)
  else
    let obj := { obj with z := obj.z + speed }
    if obj.z > 1.15 then ((s, r), { obj with active := false })
    else if obj.collected = false ∧ collisionZoneStart ≤ obj.z ∧ obj.z ≤ collisionZoneEnd then
      let objX := getLaneXNormalized obj.lane
      let baseSize : ℚ := if obj.isCollectible then 70 else 100
      let baseHalfWidth : ℚ := if obj.isCollectible then 0.05 else 0.06
      let objHalfWidth := baseHalfWidth * (obj.size / baseSize)
      let playerLeft := s.playerX - s.playerBodyWidth / 2
      let playerRight := s.playerX + s.playerBodyWidth / 2
      let objLeft := objX - objHalfWidth
      let objRight := objX + objHalfWidth
      if playerRight > objLeft ∧ playerLeft < objRight then
        collideObject now colorRoll vel (s, r) obj
      else ((s, r), obj)
    else ((s, r), obj)

/-- The collision loop itself: left-to-right over the pool, threading the
engine state and frame result, and rebuilding the updated pool in place.
`i` is the iteration index, used to address this frame's random draws. -/
def runObjects (now speed : ℚ) (colorRoll : Nat → Nat → Nat)
    (vel : Nat → Nat → ℚ × ℚ) (sr : RunnerGameState × RunnerUpdateResult) :
    List RunnerObject → Nat → (RunnerGameState × RunnerUpdateResult) × List RunnerObject
  | [], _ => (sr, [])
  | o :: rest, i =>
    let p := stepObject now speed (colorRoll i) (vel i) sr o
    let q := runObjects now speed colorRoll vel p.1 rest (i + 1)
    (q.1, p.2 :: q.2)

/-- The random draws a single frame may consume: the spawn draws, and the
per-collect color and velocity draws addressed by object iteration index. -/
structure FrameEnv where
  spawnChoice : SpawnChoice
  colorRoll : Nat → Nat → Nat
  vel : Nat → Nat → ℚ × ℚ

/-- `update(_deltaTime, currentTime)` phase 1 (lines 105-114): advance the
jump animation from wall-clock time and land at progress 1. -/
def jumpPhase (s : RunnerGameState) (currentTime : ℚ) : RunnerGameState :=
  if s.player.isJumping then
    let jumpElapsed := currentTime - s.jumpStartTime
    let jp := min 1 (jumpElapsed / JUMP_DURATION)
    if 1 ≤ jp then
      { s with player := { s.player with isJumping := false, jumpProgress := 0 } }
    else { s with player := { s.player with jumpProgress := jp } }
  else s

/-- `update` phase 2 (lines 116-119): lazily clear invincibility once the
wall clock passes the deadline. -/
def invincibilityPhase (s : RunnerGameState) (currentTime : ℚ) : RunnerGameState :=
  if s.player.isInvincible ∧ currentTime > s.player.invincibleUntil then
    { s with player := { s.player with isInvincible := false } }
  else s

/-- `update` phase 3 (lines 121-125): spawn when the interval has elapsed. -/
def spawnPhase (s : RunnerGameState) (c : SpawnChoice) (currentTime : ℚ) :
    RunnerGameState :=
  if currentTime - s.lastSpawnTime > s.config.spawnInterval then
    { spawnObject s c with lastSpawnTime := currentTime }
  else s

/-- `update(_deltaTime, currentTime)` (part_005, lines 97-206): jump
animation, invincibility expiry, conditional spawn, the collision loop over
all objects at `speed * 0.006` per frame, the at-most-once level-up check,
and the particle update, returning the frame's event batch. -/
def update (s : RunnerGameState) (env : FrameEnv) (_deltaTime currentTime : ℚ) :
    RunnerGameState × RunnerUpdateResult :=
  let s1 := jumpPhase s currentTime
  let s2 := invincibilityPhase s1 currentTime
  let s3 := spawnPhase s2 env.spawnChoice currentTime
  let speed := s3.config.speed * 0.006
  let r0 : RunnerUpdateResult :=
    { collected := [], crashed := [], gameOver := false, leveledUp := false }
  let q := runObjects currentTime speed env.colorRoll env.vel (s3, r0) s3.objects 0
  let s4 := { q.1.1 with objects := q.2 }
  let r1 := q.1.2
  let sr :=
    if LEVEL_UP_SCORE ≤ s4.score - s4.lastLevelScore then
      ({ levelUp s4 with lastLevelScore := s4.score }, { r1 with leveledUp := true })
    else (s4, r1)
  (updateParticles sr.1, sr.2)

/-- Number of events in a frame result that carry an object with id `n`
(each `collected`/`crashed` entry is one judgement with its score/lives
mutation and event emission). -/
def eventCount (n : Nat) (r : RunnerUpdateResult) : Nat :=
  r.collected.countP (fun o => o.id == n) + r.crashed.countP (fun o => o.id == n)

/-- Weight of a single pooled object toward the resolution potential: 1 when
it carries id `n` and has not been resolved yet. -/
def objWeight (n : Nat) (o : RunnerObject) : Nat :=
  if o.id = n ∧ o.collected = false then 1 else 0

/-- Number of unresolved objects with id `n` in a pool. -/
def unresolvedCount (n : Nat) (l : List RunnerObject) : Nat :=
  l.countP (fun o => o.id == n && !o.collected)

/-- Resolution potential of id `n` in a state: unresolved pooled objects
carrying `n`, plus one future lifetime when `n` has not been handed out by
`nextObjectId` yet.  Every judgement event for `n` strictly consumes it. -/
def potential (n : Nat) (s : RunnerGameState) : Nat :=
  unresolvedCount n s.objects + (if s.nextObjectId ≤ n then 1 else 0)

/-- Number of resolved obstacles in a pool. -/
def obstaclesResolved (l : List RunnerObject) : Nat :=
  l.countP (fun o => !o.isCollectible && o.collected)

/-- A run of consecutive frames: apply `update` for each `(env, deltaTime,
now)` triple, collecting every frame result. -/
def runFrames (s : RunnerGameState) :
    List (FrameEnv × ℚ × ℚ) → RunnerGameState × List RunnerUpdateResult
  | [] => (s, [])
  | f :: fs =>
    let p := update s f.1 f.2.1 f.2.2
    let q := runFrames p.1 fs
    (q.1, p.2 :: q.2)

/-- Total number of judgement events carrying id `n` across a run. -/
def totalEvents (n : Nat) (rs : List RunnerUpdateResult) : Nat :=
  (rs.map (eventCount n)).sum

/-- The public mutating operations of the engine other than `reset`, as a
host may interleave them between frames. -/
inductive GameOp where
  | update (env : FrameEnv) (deltaTime currentTime : ℚ)
  | setPlayerPosition (rawCenterX bodyWidth smoothedCenterX : ℚ)
  | triggerJump (now : ℚ)
  | updateDimensions (width height : ℚ)

/-- Apply one public operation. -/
def applyOp (s : RunnerGameState) : GameOp → RunnerGameState
  | .update env dt t => (update s env dt t).1
  | .setPlayerPosition a b c => setPlayerPosition s a b c
  | .triggerJump t => triggerJump s t
  | .updateDimensions w h => updateDimensions s w h

/-- Apply a sequence of public operations left to right. -/
def applyOps (s : RunnerGameState) (ops : List GameOp) : RunnerGameState :=
  ops.foldl applyOp s

/-- States reachable from a constructor call through the public interface
(`update`, `setPlayerPosition`, `triggerJump`, `updateDimensions`,
`reset`). -/
inductive Reachable : RunnerGameState → Prop where
  | init (w h : ℚ) : Reachable (init w h)
  | update (s : RunnerGameState) (env : FrameEnv) (dt t : ℚ) :
      Reachable s → Reachable (update s env dt t).1
  | setPlayerPosition (s : RunnerGameState) (a b c : ℚ) :
      Reachable s → Reachable (setPlayerPosition s a b c)
  | triggerJump (s : RunnerGameState) (t : ℚ) :
      Reachable s → Reachable (triggerJump s t)
  | updateDimensions (s : RunnerGameState) (w h : ℚ) :
      Reachable s → Reachable (updateDimensions s w h)
  | reset (s : RunnerGameState) : Reachable s → Reachable (reset s)

/-- A fixed frame environment for concrete test states: the spawn draws pick
a center-lane barrier, the color roll always picks index 0, and the velocity
draw is the angle-0 pair `(cos 0 * 4, sin 0 * 4 - 3)`. -/
def env0 : FrameEnv :=
  { spawnChoice := { isObstacle := true, typeRoll := true, lane := 1 }
    colorRoll := fun _ _ => 0
    vel := fun _ _ => (4, -3) }

/-- A center-lane barrier sitting in the collision band. -/
def barrier60 : RunnerObject :=
  { id := 0, type := .barrier, lane := 1, z := 0.6, isCollectible := false
    collected := false, size := 100, active := true }

/-- A center-lane coin sitting in the collision band. -/
def coin60 : RunnerObject :=
  { id := 0, type := .coin, lane := 1, z := 0.6, isCollectible := true
    collected := false, size := 70, active := true }

/-- A center-lane gem sitting in the collision band. -/
def gem60 : RunnerObject :=
  { id := 0, type := .gem, lane := 1, z := 0.6, isCollectible := true
    collected := false, size := 70, active := true }

/-- Fresh game with a single barrier in the band ahead of the player. -/
def stObstacle : RunnerGameState :=
  { init 800 600 with objects := [barrier60] }

/-- Same, but the player is invincible until t = 5000 ms. -/
def stInvincible : RunnerGameState :=
  { stObstacle with
    player := { stObstacle.player with isInvincible := true, invincibleUntil := 5000 } }

/-- Same, but the player is mid-jump (jump started at t = 0). -/
def stJumping : RunnerGameState :=
  { stObstacle with
    player := { stObstacle.player with isJumping := true }
    jumpStartTime := 0 }

/-- Fresh game at score 499 with a single gem in the band: collecting it
jumps the score to 509, across the level-up threshold of 500. -/
def stGem499 : RunnerGameState :=
  { init 800 600 with objects := [gem60], score := 499 }

/-- Game-over state (lives 0) with a coin in the band. -/
def stDeadCoin : RunnerGameState :=
  { init 800 600 with
    objects := [coin60]
    config := { (init 800 600).config with lives := 0 } }

/-- Game-over state (lives 0) with a barrier in the band. -/
def stDeadObstacle : RunnerGameState :=
  { stObstacle with config := { stObstacle.config with lives := 0 } }

/-- A deactivated pooled barrier slot. -/
def inactiveBarrier : RunnerObject :=
  { barrier60 with active := false }

/-- Fresh game whose pool holds one inactive slot. -/
def stInactiveSlot : RunnerGameState :=
  { init 800 600 with objects := [inactiveBarrier] }

/-- Fresh game whose pool is at capacity with every slot active. -/
def stFullPool : RunnerGameState :=
  { init 800 600 with objects := List.replicate 20 barrier60 }

/-- A live feedback particle. -/
def particle0 : RunnerParticle :=
  { x := 0, y := 0, vx := 4, vy := -3, life := 1, color := "#FFD700", size := 8
    active := true }

/-- Fresh game whose particle pool holds one inactive slot. -/
def stInactiveParticle : RunnerGameState :=
  { init 800 600 with particles := [{ particle0 with active := false }] }

/-- Fresh game whose particle pool is at capacity with every slot active. -/
def stFullParticles : RunnerGameState :=
  { init 800 600 with particles := List.replicate 50 particle0 }

/-! ### Pool-scan lemmas -/

lemma reuseFirstInactive_none_iff {α : Type} (isAct : α → Bool) (f : α → α)
    (l : List α) :
    reuseFirstInactive isAct f l = none ↔ l.any (fun x => !isAct x) = false := by
  induction l with
  | nil => simp [reuseFirstInactive]
  | cons x xs ih =>
    by_cases h : isAct x = true
    · simp [reuseFirstInactive, h, ih, Option.map_eq_none']
    · simp [reuseFirstInactive, Bool.eq_false_iff.mpr h]

lemma reuseFirstInactive_some_length {α : Type} (isAct : α → Bool) (f : α → α) :
    ∀ (l l' : List α), reuseFirstInactive isAct f l = some l' →
      l'.length = l.length := by
  intro l
  induction l with
  | nil => intro l' h; simp [reuseFirstInactive] at h
  | cons x xs ih =>
    intro l' h
    by_cases hx : isAct x = true
    · simp only [reuseFirstInactive, hx, Bool.not_true, Bool.false_eq_true,
        if_false, Option.map_eq_some'] at h
      rcases h with ⟨ys, hys, rfl⟩
      simp [ih ys hys]
    · simp only [reuseFirstInactive, Bool.eq_false_iff.mpr hx, Bool.not_false,
        if_pos rfl] at h
      cases h
      simp

lemma reuseFirstInactive_some_countP {α : Type} (isAct : α → Bool)
    (fresh : α) (p : α → Bool) :
    ∀ (l l' : List α), reuseFirstInactive isAct (fun _ => fresh) l = some l' →
      l'.countP p ≤ l.countP p + (if p fresh then 1 else 0) := by
  intro l
  induction l with
  | nil => intro l' h; simp [reuseFirstInactive] at h
  | cons x xs ih =>
    intro l' h
    by_cases hx : isAct x = true
    · simp only [reuseFirstInactive, hx, Bool.not_true, Bool.false_eq_true,
        if_false, Option.map_eq_some'] at h
      rcases h with ⟨ys, hys, rfl⟩
      have := ih ys hys
      simp only [List.countP_cons]
      omega
    · simp only [reuseFirstInactive, Bool.eq_false_iff.mpr hx, Bool.not_false,
        if_pos rfl] at h
      cases h
      simp only [List.countP_cons]
      omega

/-! ### Shape lemmas: which fields each helper can touch -/

lemma spawnOneParticle_shape (s : RunnerGameState) (x : ℚ) (c : String) (v : ℚ × ℚ) :
    ∃ ps, spawnOneParticle s x c v = { s with particles := ps } := by
  simp only [spawnOneParticle]
  split
  · exact ⟨_, rfl⟩
  · split_ifs
    · exact ⟨_, rfl⟩
    · exact ⟨s.particles, rfl⟩

lemma spawnOneParticle_len (s : RunnerGameState) (x : ℚ) (c : String) (v : ℚ × ℚ) :
    (spawnOneParticle s x c v).particles.length = s.particles.length ∨
    ((spawnOneParticle s x c v).particles.length = s.particles.length + 1 ∧
      s.particles.length < MAX_PARTICLES) := by
  simp only [spawnOneParticle]
  split
  · next ps h =>
    left
    simpa using reuseFirstInactive_some_length _ _ _ _ h
  · split_ifs with hl
    · right
      constructor
      · simp
      · exact hl
    · left
      rfl

lemma spawnOneParticle_reuse (s : RunnerGameState) (x : ℚ) (c : String) (v : ℚ × ℚ)
    (h : s.particles.any (fun p => !p.active) = true) :
    (spawnOneParticle s x c v).particles.length = s.particles.length := by
  simp only [spawnOneParticle]
  cases hr : reuseFirstInactive (fun p => p.active) (fun _ => _) s.particles with
  | none =>
    rw [reuseFirstInactive_none_iff] at hr
    rw [hr] at h
    cases h
  | some ps =>
    simpa using reuseFirstInactive_some_length _ _ _ _ hr

lemma spawnOneParticle_skip (s : RunnerGameState) (x : ℚ) (c : String) (v : ℚ × ℚ)
    (h1 : s.particles.any (fun p => !p.active) = false)
    (h2 : MAX_PARTICLES ≤ s.particles.length) :
    spawnOneParticle s x c v = s := by
  simp only [spawnOneParticle]
  rw [(reuseFirstInactive_none_iff _ _ _).mpr h1]
  simp [Nat.not_lt.mpr h2]

lemma foldl_spawnOne_shape (x : ℚ) (cf : Nat → String) (vf : Nat → ℚ × ℚ) :
    ∀ (l : List Nat) (s : RunnerGameState), ∃ ps,
      l.foldl (fun st i => spawnOneParticle st x (cf i) (vf i)) s =
        { s with particles := ps } := by
  intro l
  induction l with
  | nil => exact fun s => ⟨s.particles, rfl⟩
  | cons i t ih =>
    intro s
    obtain ⟨ps0, h0⟩ := spawnOneParticle_shape s x (cf i) (vf i)
    obtain ⟨ps, hps⟩ := ih { s with particles := ps0 }
    refine ⟨ps, ?_⟩
    simpa [h0] using hps

lemma spawnCollectParticles_shape (s : RunnerGameState) (obj : RunnerObject)
    (cr : Nat → Nat) (vel : Nat → ℚ × ℚ) :
    ∃ ps, spawnCollectParticles s obj cr vel = { s with particles := ps } := by
  simp only [spawnCollectParticles]
  exact foldl_spawnOne_shape _ _ _ _ s

lemma foldl_spawnOne_len_le (x : ℚ) (cf : Nat → String) (vf : Nat → ℚ × ℚ) :
    ∀ (l : List Nat) (s : RunnerGameState),
      s.particles.length ≤ MAX_PARTICLES →
      (l.foldl (fun st i => spawnOneParticle st x (cf i) (vf i)) s).particles.length ≤
        MAX_PARTICLES := by
  intro l
  induction l with
  | nil => exact fun s h => h
  | cons i t ih =>
    intro s h
    simp only [List.foldl_cons]
    refine ih _ ?_
    show (spawnOneParticle s x (cf i) (vf i)).particles.length ≤ MAX_PARTICLES
    rcases spawnOneParticle_len s x (cf i) (vf i) with h1 | ⟨h1, h2⟩
    · omega
    · omega

lemma spawnCollectParticles_len_le (s : RunnerGameState) (obj : RunnerObject)
    (cr : Nat → Nat) (vel : Nat → ℚ × ℚ)
    (h : s.particles.length ≤ MAX_PARTICLES) :
    (spawnCollectParticles s obj cr vel).particles.length ≤ MAX_PARTICLES := by
  simp only [spawnCollectParticles]
  exact foldl_spawnOne_len_le _ _ _ _ s h

lemma spawnCollectParticles_skip (s : RunnerGameState) (obj : RunnerObject)
    (cr : Nat → Nat) (vel : Nat → ℚ × ℚ)
    (h1 : s.particles.any (fun p => !p.active) = false)
    (h2 : MAX_PARTICLES ≤ s.particles.length) :
    spawnCollectParticles s obj cr vel = s := by
  simp only [spawnCollectParticles]
  have hfix : ∀ (l : List Nat),
      l.foldl (fun st i => spawnOneParticle st
        (getLaneXNormalized obj.lane * s.config.canvasWidth)
        ((if obj.type = RunnerObjectType.gem
            then ["#FF69B4", "#9B59B6", "#3498DB", "#2ECC71"]
            else ["#FFD700", "#FFA500", "#FFFF00"]).getD
          (cr i % (if obj.type = RunnerObjectType.gem
            then ["#FF69B4", "#9B59B6", "#3498DB", "#2ECC71"]
            else ["#FFD700", "#FFA500", "#FFFF00"]).length) "#FFD700")
        (vel i)) s = s := by
    intro l
    induction l with
    | nil => rfl
    | cons i t ih =>
      simp only [List.foldl_cons, spawnOneParticle_skip s _ _ _ h1 h2]
      exact ih
  exact hfix _

/-! ### `spawnObject` lemmas -/

lemma spawnObject_shape (s : RunnerGameState) (c : SpawnChoice) :
    ∃ objs nid, spawnObject s c = { s with objects := objs, nextObjectId := nid } := by
  simp only [spawnObject]
  split
  · exact ⟨_, _, rfl⟩
  · split_ifs
    · exact ⟨_, _, rfl⟩
    · exact ⟨s.objects, s.nextObjectId, rfl⟩

lemma spawnObject_reuse (s : RunnerGameState) (c : SpawnChoice)
    (h : s.objects.any (fun o => !o.active) = true) :
    (spawnObject s c).objects.length = s.objects.length := by
  simp only [spawnObject]
  cases hr : reuseFirstInactive (fun o => o.active) (fun _ => _) s.objects with
  | none =>
    rw [reuseFirstInactive_none_iff] at hr
    rw [hr] at h
    cases h
  | some objs =>
    simpa using reuseFirstInactive_some_length _ _ _ _ hr

lemma spawnObject_append (s : RunnerGameState) (c : SpawnChoice)
    (h1 : s.objects.any (fun o => !o.active) = false)
    (h2 : s.objects.length < MAX_OBJECTS) :
    (spawnObject s c).objects.length = s.objects.length + 1 := by
  simp only [spawnObject]
  rw [(reuseFirstInactive_none_iff _ _ _).mpr h1]
  simp [h2]

lemma spawnObject_skip (s : RunnerGameState) (c : SpawnChoice)
    (h1 : s.objects.any (fun o => !o.active) = false)
    (h2 : MAX_OBJECTS ≤ s.objects.length) :
    spawnObject s c = s := by
  simp only [spawnObject]
  rw [(reuseFirstInactive_none_iff _ _ _).mpr h1]
  simp [Nat.not_lt.mpr h2]

lemma spawnObject_len_le (s : RunnerGameState) (c : SpawnChoice)
    (h : s.objects.length ≤ MAX_OBJECTS) :
    (spawnObject s c).objects.length ≤ MAX_OBJECTS := by
  simp only [spawnObject]
  split
  · next objs hr =>
    simpa [reuseFirstInactive_some_length _ _ _ _ hr] using h
  · split_ifs with hl
    · simpa using hl
    · exact h

lemma spawnObject_countP (s : RunnerGameState) (c : SpawnChoice)
    (p : RunnerObject → Bool) :
    (spawnObject s c).objects.countP p ≤
      s.objects.countP p + (if p (freshObject s c) then 1 else 0) := by
  simp only [spawnObject]
  split
  · next objs hr =>
    simpa using reuseFirstInactive_some_countP _ _ p _ _ hr
  · by_cases hp : p (freshObject s c) = true <;>
      by_cases hl : s.objects.length < MAX_OBJECTS <;>
        simp [hl, hp, List.countP_append, List.countP_cons]


/-! ### Potential bookkeeping for the at-most-once argument -/

lemma unresolvedCount_cons (n : Nat) (o : RunnerObject) (l : List RunnerObject) :
    unresolvedCount n (o :: l) = objWeight n o + unresolvedCount n l := by
  simp only [unresolvedCount, List.countP_cons, objWeight]
  by_cases h1 : o.id = n <;> by_cases h2 : o.collected = false <;>
    simp [h1, h2] <;> omega

lemma spawnObject_cases (s : RunnerGameState) (c : SpawnChoice) :
    (∃ objs,
      reuseFirstInactive (fun o => o.active) (fun _ => freshObject s c) s.objects =
        some objs ∧
      spawnObject s c =
        { s with objects := objs, nextObjectId := s.nextObjectId + 1 }) ∨
    (reuseFirstInactive (fun o => o.active) (fun _ => freshObject s c) s.objects =
        none ∧
      s.objects.length < MAX_OBJECTS ∧
      spawnObject s c =
        { s with objects := s.objects ++ [freshObject s c],
                 nextObjectId := s.nextObjectId + 1 }) ∨
    (reuseFirstInactive (fun o => o.active) (fun _ => freshObject s c) s.objects =
        none ∧
      MAX_OBJECTS ≤ s.objects.length ∧ spawnObject s c = s) := by
  cases hr : reuseFirstInactive (fun o => o.active) (fun _ => freshObject s c)
      s.objects with
  | some objs =>
    left
    exact ⟨objs, rfl, by simp [spawnObject, hr]⟩
  | none =>
    by_cases hl : s.objects.length < MAX_OBJECTS
    · right; left
      exact ⟨rfl, hl, by simp [spawnObject, hr, hl]⟩
    · right; right
      exact ⟨rfl, Nat.le_of_not_lt hl, by simp [spawnObject, hr, hl]⟩

lemma spawnObject_potential (s : RunnerGameState) (c : SpawnChoice) (n : Nat) :
    potential n (spawnObject s c) ≤ potential n s := by
  rcases spawnObject_cases s c with ⟨objs, hr, heq⟩ | ⟨hr, hl, heq⟩ | ⟨hr, hl, heq⟩
  · have hc := reuseFirstInactive_some_countP (fun o => o.active) (freshObject s c)
      (fun o => o.id == n && !o.collected) _ _ hr
    have hc' : objs.countP (fun o => o.id == n && !o.collected) ≤
        s.objects.countP (fun o => o.id == n && !o.collected) +
          (if s.nextObjectId = n then 1 else 0) := by
      simpa [freshObject, beq_iff_eq] using hc
    rw [heq]
    simp only [potential, unresolvedCount]
    split_ifs at hc' ⊢ <;> omega
  · have happ : (s.objects ++ [freshObject s c]).countP
        (fun o => o.id == n && !o.collected) =
        s.objects.countP (fun o => o.id == n && !o.collected) +
          (if s.nextObjectId = n then 1 else 0) := by
      rw [List.countP_append]
      simp [List.countP_cons, freshObject, beq_iff_eq]
    rw [heq]
    simp only [potential, unresolvedCount]
    split_ifs at happ ⊢ <;> omega
  · rw [heq]

/-! ### Frame-phase lemmas -/

lemma jumpPhase_shape (s : RunnerGameState) (t : ℚ) :
    ∃ b q, jumpPhase s t =
      { s with player := { s.player with isJumping := b, jumpProgress := q } } := by
  simp only [jumpPhase]
  split_ifs
  · exact ⟨_, _, rfl⟩
  · exact ⟨_, _, rfl⟩
  · exact ⟨s.player.isJumping, s.player.jumpProgress, rfl⟩

lemma jumpPhase_not (s : RunnerGameState) (t : ℚ)
    (h : s.player.isJumping = false) : jumpPhase s t = s := by
  simp [jumpPhase, h]

lemma jumpPhase_mid (s : RunnerGameState) (t : ℚ)
    (h : s.player.isJumping = true)
    (hlt : (t - s.jumpStartTime) / JUMP_DURATION < 1) :
    jumpPhase s t =
      { s with player :=
          { s.player with jumpProgress := (t - s.jumpStartTime) / JUMP_DURATION } } := by
  simp only [jumpPhase, h, if_true]
  rw [min_eq_right hlt.le, if_neg (not_le.mpr hlt)]

lemma invincibilityPhase_shape (s : RunnerGameState) (t : ℚ) :
    ∃ b, invincibilityPhase s t =
      { s with player := { s.player with isInvincible := b } } := by
  simp only [invincibilityPhase]
  split_ifs
  · exact ⟨_, rfl⟩
  · exact ⟨s.player.isInvincible, rfl⟩

lemma invincibilityPhase_keep (s : RunnerGameState) (t : ℚ)
    (hdl : t ≤ s.player.invincibleUntil) : invincibilityPhase s t = s := by
  simp only [invincibilityPhase]
  rw [if_neg]
  exact fun h => absurd h.2 (not_lt.mpr hdl)

lemma invincibilityPhase_false (s : RunnerGameState) (t : ℚ)
    (hinv : s.player.isInvincible = false) : invincibilityPhase s t = s := by
  simp only [invincibilityPhase]
  rw [if_neg]
  intro h
  rw [hinv] at h
  exact absurd h.1 (by simp)

lemma spawnPhase_cases (s : RunnerGameState) (c : SpawnChoice) (t : ℚ) :
    spawnPhase s c t = s ∨
    spawnPhase s c t = { spawnObject s c with lastSpawnTime := t } := by
  simp only [spawnPhase]
  split_ifs
  · right; rfl
  · left; rfl

lemma spawnPhase_no (s : RunnerGameState) (c : SpawnChoice) (t : ℚ)
    (h : t - s.lastSpawnTime ≤ s.config.spawnInterval) :
    spawnPhase s c t = s := by
  simp only [spawnPhase]
  rw [if_neg (not_lt.mpr h)]

lemma updateParticles_len (s : RunnerGameState) :
    (updateParticles s).particles.length = s.particles.length := by
  simp [updateParticles]

lemma stepParticle_inactive (p : RunnerParticle) (h : p.active = false) :
    stepParticle p = p := by
  simp [stepParticle, h]

lemma stepParticle_active (p : RunnerParticle) (h : p.active = true) :
    (stepParticle p).life = p.life - 0.035 ∧
    ((stepParticle p).active = false ↔ p.life - 0.035 ≤ 0) := by
  simp only [stepParticle, h, Bool.not_true, Bool.false_eq_true, if_false]
  split_ifs with hl <;> simp [hl]

/-! ### Projections of the particle burst -/

lemma spawnCollectParticles_score (s : RunnerGameState) (obj : RunnerObject)
    (cr : Nat → Nat) (vel : Nat → ℚ × ℚ) :
    (spawnCollectParticles s obj cr vel).score = s.score := by
  obtain ⟨ps, h⟩ := spawnCollectParticles_shape s obj cr vel
  rw [h]

lemma spawnCollectParticles_player (s : RunnerGameState) (obj : RunnerObject)
    (cr : Nat → Nat) (vel : Nat → ℚ × ℚ) :
    (spawnCollectParticles s obj cr vel).player = s.player := by
  obtain ⟨ps, h⟩ := spawnCollectParticles_shape s obj cr vel
  rw [h]

lemma spawnCollectParticles_config (s : RunnerGameState) (obj : RunnerObject)
    (cr : Nat → Nat) (vel : Nat → ℚ × ℚ) :
    (spawnCollectParticles s obj cr vel).config = s.config := by
  obtain ⟨ps, h⟩ := spawnCollectParticles_shape s obj cr vel
  rw [h]

lemma spawnCollectParticles_objects (s : RunnerGameState) (obj : RunnerObject)
    (cr : Nat → Nat) (vel : Nat → ℚ × ℚ) :
    (spawnCollectParticles s obj cr vel).objects = s.objects := by
  obtain ⟨ps, h⟩ := spawnCollectParticles_shape s obj cr vel
  rw [h]

lemma spawnCollectParticles_nextObjectId (s : RunnerGameState) (obj : RunnerObject)
    (cr : Nat → Nat) (vel : Nat → ℚ × ℚ) :
    (spawnCollectParticles s obj cr vel).nextObjectId = s.nextObjectId := by
  obtain ⟨ps, h⟩ := spawnCollectParticles_shape s obj cr vel
  rw [h]

lemma spawnCollectParticles_lastLevelScore (s : RunnerGameState) (obj : RunnerObject)
    (cr : Nat → Nat) (vel : Nat → ℚ × ℚ) :
    (spawnCollectParticles s obj cr vel).lastLevelScore = s.lastLevelScore := by
  obtain ⟨ps, h⟩ := spawnCollectParticles_shape s obj cr vel
  rw [h]

lemma spawnCollectParticles_lastSpawnTime (s : RunnerGameState) (obj : RunnerObject)
    (cr : Nat → Nat) (vel : Nat → ℚ × ℚ) :
    (spawnCollectParticles s obj cr vel).lastSpawnTime = s.lastSpawnTime := by
  obtain ⟨ps, h⟩ := spawnCollectParticles_shape s obj cr vel
  rw [h]

lemma spawnCollectParticles_playerX (s : RunnerGameState) (obj : RunnerObject)
    (cr : Nat → Nat) (vel : Nat → ℚ × ℚ) :
    (spawnCollectParticles s obj cr vel).playerX = s.playerX := by
  obtain ⟨ps, h⟩ := spawnCollectParticles_shape s obj cr vel
  rw [h]

lemma spawnCollectParticles_playerBodyWidth (s : RunnerGameState) (obj : RunnerObject)
    (cr : Nat → Nat) (vel : Nat → ℚ × ℚ) :
    (spawnCollectParticles s obj cr vel).playerBodyWidth = s.playerBodyWidth := by
  obtain ⟨ps, h⟩ := spawnCollectParticles_shape s obj cr vel
  rw [h]

/-! ### Case characterisation of the per-object collision step -/

lemma collideObject_chars (now : ℚ) (cr : Nat → Nat) (vel : Nat → ℚ × ℚ)
    (s : RunnerGameState) (r : RunnerUpdateResult) (o : RunnerObject) :
    (∃ o',
      collideObject now cr vel (s, r) o = ((s, r), o') ∧
      o'.id = o.id ∧ o'.collected = o.collected ∧
      o'.isCollectible = o.isCollectible) ∨
    (∃ s' o',
      collideObject now cr vel (s, r) o =
        ((s', { r with collected := r.collected ++ [o'] }), o') ∧
      o'.id = o.id ∧ o'.collected = true ∧
      o'.isCollectible = o.isCollectible ∧ o.isCollectible = true ∧
      s'.player = s.player ∧ s'.config = s.config ∧ s'.objects = s.objects ∧
      s'.nextObjectId = s.nextObjectId ∧ s'.lastLevelScore = s.lastLevelScore ∧
      s'.lastSpawnTime = s.lastSpawnTime ∧ s'.playerX = s.playerX ∧
      s'.playerBodyWidth = s.playerBodyWidth ∧ s.score ≤ s'.score ∧
      (s.particles.length ≤ MAX_PARTICLES → s'.particles.length ≤ MAX_PARTICLES)) ∨
    (∃ r' o',
      collideObject now cr vel (s, r) o =
        (({ s with config := { s.config with lives := s.config.lives - 1 }, player := { s.player with isInvincible := true, invincibleUntil := now + 1500 } }, r'), o') ∧
      o'.id = o.id ∧ o'.collected = true ∧
      o'.isCollectible = o.isCollectible ∧ o.isCollectible = false ∧
      s.player.isInvincible = false ∧
      ¬(s.player.isJumping = true ∧ 0.08 < s.player.jumpProgress ∧
          s.player.jumpProgress < 0.92) ∧
      r'.collected = r.collected ∧ r'.crashed = r.crashed ++ [o'] ∧
      r'.leveledUp = r.leveledUp ∧
      (r'.gameOver = true ↔ (s.config.lives - 1 ≤ 0 ∨ r.gameOver = true))) := by
  simp only [collideObject]
  dsimp only
  by_cases d1 : o.isCollectible = true
  · rw [if_pos d1]
    refine Or.inr (Or.inl ⟨_, _, rfl, rfl, rfl, rfl, d1, ?_, ?_, ?_, ?_, ?_, ?_,
      ?_, ?_, ?_, ?_⟩)
    · rw [spawnCollectParticles_player]
    · rw [spawnCollectParticles_config]
    · rw [spawnCollectParticles_objects]
    · rw [spawnCollectParticles_nextObjectId]
    · rw [spawnCollectParticles_lastLevelScore]
    · rw [spawnCollectParticles_lastSpawnTime]
    · rw [spawnCollectParticles_playerX]
    · rw [spawnCollectParticles_playerBodyWidth]
    · rw [spawnCollectParticles_score]
      exact Nat.le_add_right _ _
    · exact fun h => spawnCollectParticles_len_le _ _ _ _ h
  rw [if_neg d1]
  by_cases d2 : s.player.isInvincible = false
  swap
  · rw [if_neg d2]
    exact Or.inl ⟨o, rfl, rfl, rfl, rfl⟩
  rw [if_pos d2]
  by_cases d3 : s.player.isJumping = true ∧ 0.08 < s.player.jumpProgress ∧
      s.player.jumpProgress < 0.92
  · rw [if_pos d3]
    exact Or.inl ⟨o, rfl, rfl, rfl, rfl⟩
  rw [if_neg d3]
  by_cases d4 : s.config.lives - 1 ≤ (0 : Int)
  · rw [if_pos d4]
    refine Or.inr (Or.inr ⟨_, _, rfl, rfl, rfl, rfl, by simpa using d1, d2, d3,
      rfl, rfl, rfl, ?_⟩)
    simp [d4]
  · rw [if_neg d4]
    refine Or.inr (Or.inr ⟨_, _, rfl, rfl, rfl, rfl, by simpa using d1, d2, d3,
      rfl, rfl, rfl, ?_⟩)
    simp [d4]

lemma stepObject_chars (now sp : ℚ) (cr : Nat → Nat) (vel : Nat → ℚ × ℚ)
    (s : RunnerGameState) (r : RunnerUpdateResult) (o : RunnerObject) :
    (∃ o',
      stepObject now sp cr vel (s, r) o = ((s, r), o') ∧
      o'.id = o.id ∧ o'.collected = o.collected ∧
      o'.isCollectible = o.isCollectible) ∨
    (∃ s' o',
      stepObject now sp cr vel (s, r) o =
        ((s', { r with collected := r.collected ++ [o'] }), o') ∧
      o'.id = o.id ∧ o.collected = false ∧ o'.collected = true ∧
      o'.isCollectible = o.isCollectible ∧ o.isCollectible = true ∧
      s'.player = s.player ∧ s'.config = s.config ∧ s'.objects = s.objects ∧
      s'.nextObjectId = s.nextObjectId ∧ s'.lastLevelScore = s.lastLevelScore ∧
      s'.lastSpawnTime = s.lastSpawnTime ∧ s'.playerX = s.playerX ∧
      s'.playerBodyWidth = s.playerBodyWidth ∧ s.score ≤ s'.score ∧
      (s.particles.length ≤ MAX_PARTICLES → s'.particles.length ≤ MAX_PARTICLES)) ∨
    (∃ r' o',
      stepObject now sp cr vel (s, r) o =
        (({ s with config := { s.config with lives := s.config.lives - 1 }, player := { s.player with isInvincible := true, invincibleUntil := now + 1500 } }, r'), o') ∧
      o'.id = o.id ∧ o.collected = false ∧ o'.collected = true ∧
      o'.isCollectible = o.isCollectible ∧ o.isCollectible = false ∧
      s.player.isInvincible = false ∧
      ¬(s.player.isJumping = true ∧ 0.08 < s.player.jumpProgress ∧
          s.player.jumpProgress < 0.92) ∧
      r'.collected = r.collected ∧ r'.crashed = r.crashed ++ [o'] ∧
      r'.leveledUp = r.leveledUp ∧
      (r'.gameOver = true ↔ (s.config.lives - 1 ≤ 0 ∨ r.gameOver = true))) := by
  simp only [stepObject]
  by_cases c1 : o.active = false
  · rw [if_pos c1]
    exact Or.inl ⟨o, rfl, rfl, rfl, rfl⟩
  rw [if_neg c1]
  by_cases c2 : o.z + sp > 1.15
  · rw [if_pos c2]
    exact Or.inl ⟨_, rfl, rfl, rfl, rfl⟩
  rw [if_neg c2]
  by_cases c3 : o.collected = false ∧ collisionZoneStart ≤ o.z + sp ∧
      o.z + sp ≤ collisionZoneEnd
  swap
  · rw [if_neg]
    · exact Or.inl ⟨_, rfl, rfl, rfl, rfl⟩
    · exact c3
  rw [if_pos c3]
  by_cases c4 : s.playerX + s.playerBodyWidth / 2 >
      getLaneXNormalized o.lane - (if o.isCollectible = true then (0.05 : ℚ) else 0.06) *
        (o.size / (if o.isCollectible = true then (70 : ℚ) else 100)) ∧
    s.playerX - s.playerBodyWidth / 2 <
      getLaneXNormalized o.lane + (if o.isCollectible = true then (0.05 : ℚ) else 0.06) *
        (o.size / (if o.isCollectible = true then (70 : ℚ) else 100))
  swap
  · rw [if_neg c4]
    exact Or.inl ⟨_, rfl, rfl, rfl, rfl⟩
  rw [if_pos c4]
  rcases collideObject_chars now cr vel s r { o with z := o.z + sp } with
    ⟨o', heq, h1, h2, h3⟩ | ⟨s', o', heq, h1, h2, h3, h4, h5, h6, h7, h8, h9, h10,
      h11, h12, h13, h14⟩ | ⟨r', o', heq, h1, h2, h3, h4, h5, h6, h7, h8, h9, h10⟩
  · rw [heq]
    exact Or.inl ⟨o', rfl, h1, h2, h3⟩
  · rw [heq]
    exact Or.inr (Or.inl ⟨s', o', rfl, h1, c3.1, h2, h3, h4, h5, h6, h7, h8, h9,
      h10, h11, h12, h13, h14⟩)
  · rw [heq]
    exact Or.inr (Or.inr ⟨r', o', rfl, h1, c3.1, h2, h3, h4, h5, h6, h7, h8, h9,
      h10⟩)

/-! ### Per-step corollaries -/

lemma objWeight_eq_of (n : Nat) {o o' : RunnerObject} (hid : o'.id = o.id)
    (hc : o'.collected = o.collected) : objWeight n o' = objWeight n o := by
  simp [objWeight, hid, hc]

lemma stepObject_frame (now sp : ℚ) (cr : Nat → Nat) (vel : Nat → ℚ × ℚ)
    (s : RunnerGameState) (r : RunnerUpdateResult) (o : RunnerObject) :
    (stepObject now sp cr vel (s, r) o).1.1.objects = s.objects ∧
    (stepObject now sp cr vel (s, r) o).1.1.nextObjectId = s.nextObjectId ∧
    (stepObject now sp cr vel (s, r) o).1.1.lastLevelScore = s.lastLevelScore ∧
    (stepObject now sp cr vel (s, r) o).1.1.lastSpawnTime = s.lastSpawnTime ∧
    (stepObject now sp cr vel (s, r) o).1.1.config.level = s.config.level ∧
    (stepObject now sp cr vel (s, r) o).1.1.config.maxLives = s.config.maxLives ∧
    (stepObject now sp cr vel (s, r) o).1.1.config.lives ≤ s.config.lives ∧
    s.score ≤ (stepObject now sp cr vel (s, r) o).1.1.score ∧
    (s.particles.length ≤ MAX_PARTICLES →
      (stepObject now sp cr vel (s, r) o).1.1.particles.length ≤ MAX_PARTICLES) ∧
    (stepObject now sp cr vel (s, r) o).2.id = o.id ∧
    (stepObject now sp cr vel (s, r) o).2.isCollectible = o.isCollectible ∧
    (stepObject now sp cr vel (s, r) o).1.2.leveledUp = r.leveledUp := by
  rcases stepObject_chars now sp cr vel s r o with
    ⟨o', heq, h1, h2, h3⟩ | ⟨s', o', heq, h1, h2, h3, h4, h5, h6, h7, h8, h9,
      h10, h11, h12, h13, h14, h15⟩ | ⟨r', o', heq, h1, h2, h3, h4, h5, h6, h7,
      h8, h9, h10⟩ <;> rw [heq]
  · exact ⟨rfl, rfl, rfl, rfl, rfl, rfl, le_refl _, le_refl _, fun h => h, h1,
      h3, rfl⟩
  · exact ⟨h8, h9, h10, h11, by rw [h7], by rw [h7], le_of_eq (by rw [h7]), h14,
      h15, h1, h4, rfl⟩
  · refine ⟨rfl, rfl, rfl, rfl, rfl, rfl, ?_, le_refl _, fun h => h, h1, h4,
      h10.1⟩
    show s.config.lives - 1 ≤ s.config.lives
    omega

lemma stepObject_count (now sp : ℚ) (cr : Nat → Nat) (vel : Nat → ℚ × ℚ)
    (s : RunnerGameState) (r : RunnerUpdateResult) (o : RunnerObject) (n : Nat) :
    eventCount n (stepObject now sp cr vel (s, r) o).1.2 +
      objWeight n (stepObject now sp cr vel (s, r) o).2 =
    eventCount n r + objWeight n o := by
  rcases stepObject_chars now sp cr vel s r o with
    ⟨o', heq, h1, h2, h3⟩ | ⟨s', o', heq, h1, h2, h3, h4, h5, h6, h7, h8, h9,
      h10, h11, h12, h13, h14, h15⟩ | ⟨r', o', heq, h1, h2, h3, h4, h5, h6, h7,
      h8, h9, h10⟩ <;> rw [heq]
  · rw [objWeight_eq_of n h1 h2]
  · simp only [eventCount, List.countP_append, List.countP_cons, List.countP_nil,
      objWeight, h1, h2, h3]
    by_cases hn : o.id = n <;> simp [hn] <;> omega
  · simp only [eventCount, objWeight, h1, h2, h3, h8, h9, List.countP_append,
      List.countP_cons, List.countP_nil]
    by_cases hn : o.id = n <;> simp [hn] <;> omega

lemma obstaclesResolved_cons (o : RunnerObject) (l : List RunnerObject) :
    obstaclesResolved (o :: l) =
      (if o.isCollectible = false ∧ o.collected = true then 1 else 0) +
        obstaclesResolved l := by
  simp only [obstaclesResolved, List.countP_cons]
  by_cases h1 : o.isCollectible = false <;> by_cases h2 : o.collected = true <;>
    simp [h1, h2] <;> omega

lemma stepObject_protected (now sp : ℚ) (cr : Nat → Nat) (vel : Nat → ℚ × ℚ)
    (s : RunnerGameState) (r : RunnerUpdateResult) (o : RunnerObject)
    (hp : s.player.isInvincible = true ∨
      (s.player.isJumping = true ∧ 0.08 < s.player.jumpProgress ∧
        s.player.jumpProgress < 0.92)) :
    (stepObject now sp cr vel (s, r) o).1.1.player = s.player ∧
    (stepObject now sp cr vel (s, r) o).1.1.config.lives = s.config.lives ∧
    (stepObject now sp cr vel (s, r) o).1.2.crashed = r.crashed ∧
    (stepObject now sp cr vel (s, r) o).2.isCollectible = o.isCollectible ∧
    (o.isCollectible = false →
      (stepObject now sp cr vel (s, r) o).2.collected = o.collected) := by
  rcases stepObject_chars now sp cr vel s r o with
    ⟨o', heq, h1, h2, h3⟩ | ⟨s', o', heq, h1, h2, h3, h4, h5, h6, h7, h8, h9,
      h10, h11, h12, h13, h14, h15⟩ | ⟨r', o', heq, h1, h2, h3, h4, h5, h6, h7,
      h8, h9, h10⟩
  · rw [heq]
    exact ⟨rfl, rfl, rfl, h3, fun _ => h2⟩
  · rw [heq]
    refine ⟨h6, by rw [h7], rfl, h4, fun hf => ?_⟩
    rw [hf] at h5
    cases h5
  · exfalso
    rcases hp with hl | hr
    · rw [hl] at h6
      cases h6
    · exact h7 hr

/-! ### Loop-level lemmas -/

lemma runObjects_frame (now sp : ℚ) (cr : Nat → Nat → Nat)
    (vel : Nat → Nat → ℚ × ℚ) :
    ∀ (objs : List RunnerObject) (i : Nat) (s : RunnerGameState)
      (r : RunnerUpdateResult),
      (runObjects now sp cr vel (s, r) objs i).1.1.objects = s.objects ∧
      (runObjects now sp cr vel (s, r) objs i).1.1.nextObjectId = s.nextObjectId ∧
      (runObjects now sp cr vel (s, r) objs i).1.1.lastLevelScore =
        s.lastLevelScore ∧
      (runObjects now sp cr vel (s, r) objs i).1.1.lastSpawnTime =
        s.lastSpawnTime ∧
      (runObjects now sp cr vel (s, r) objs i).1.1.config.level =
        s.config.level ∧
      (runObjects now sp cr vel (s, r) objs i).1.1.config.maxLives =
        s.config.maxLives ∧
      (runObjects now sp cr vel (s, r) objs i).1.1.config.lives ≤
        s.config.lives ∧
      s.score ≤ (runObjects now sp cr vel (s, r) objs i).1.1.score ∧
      (s.particles.length ≤ MAX_PARTICLES →
        (runObjects now sp cr vel (s, r) objs i).1.1.particles.length ≤
          MAX_PARTICLES) ∧
      (runObjects now sp cr vel (s, r) objs i).2.length = objs.length ∧
      (runObjects now sp cr vel (s, r) objs i).1.2.leveledUp = r.leveledUp := by
  intro objs
  induction objs with
  | nil =>
    intro i s r
    exact ⟨rfl, rfl, rfl, rfl, rfl, rfl, le_refl _, le_refl _, fun h => h, rfl,
      rfl⟩
  | cons o t ih =>
    intro i s r
    simp only [runObjects]
    obtain ⟨f1, f2, f3, f4, f5, f6, f7, f8, f9, f10, f11, f12⟩ :=
      stepObject_frame now sp (cr i) (vel i) s r o
    have hih := ih (i + 1) (stepObject now sp (cr i) (vel i) (s, r) o).1.1
      (stepObject now sp (cr i) (vel i) (s, r) o).1.2
    simp only [Prod.mk.eta] at hih
    obtain ⟨g1, g2, g3, g4, g5, g6, g7, g8, g9, g10, g11⟩ := hih
    refine ⟨g1.trans f1, g2.trans f2, g3.trans f3, g4.trans f4, g5.trans f5,
      g6.trans f6, le_trans g7 f7, le_trans f8 g8, fun h => g9 (f9 h), ?_,
      g11.trans f12⟩
    simp [g10]

lemma runObjects_count (now sp : ℚ) (cr : Nat → Nat → Nat)
    (vel : Nat → Nat → ℚ × ℚ) (n : Nat) :
    ∀ (objs : List RunnerObject) (i : Nat) (s : RunnerGameState)
      (r : RunnerUpdateResult),
      eventCount n (runObjects now sp cr vel (s, r) objs i).1.2 +
        unresolvedCount n (runObjects now sp cr vel (s, r) objs i).2 =
      eventCount n r + unresolvedCount n objs := by
  intro objs
  induction objs with
  | nil => intro i s r; rfl
  | cons o t ih =>
    intro i s r
    simp only [runObjects]
    have hstep := stepObject_count now sp (cr i) (vel i) s r o n
    have hih := ih (i + 1) (stepObject now sp (cr i) (vel i) (s, r) o).1.1
      (stepObject now sp (cr i) (vel i) (s, r) o).1.2
    simp only [Prod.mk.eta] at hih
    rw [unresolvedCount_cons, unresolvedCount_cons]
    omega

lemma runObjects_protected (now sp : ℚ) (cr : Nat → Nat → Nat)
    (vel : Nat → Nat → ℚ × ℚ) :
    ∀ (objs : List RunnerObject) (i : Nat) (s : RunnerGameState)
      (r : RunnerUpdateResult),
      (s.player.isInvincible = true ∨
        (s.player.isJumping = true ∧ 0.08 < s.player.jumpProgress ∧
          s.player.jumpProgress < 0.92)) →
      (runObjects now sp cr vel (s, r) objs i).1.1.player = s.player ∧
      (runObjects now sp cr vel (s, r) objs i).1.1.config.lives =
        s.config.lives ∧
      (runObjects now sp cr vel (s, r) objs i).1.2.crashed = r.crashed ∧
      obstaclesResolved (runObjects now sp cr vel (s, r) objs i).2 ≤
        obstaclesResolved objs := by
  intro objs
  induction objs with
  | nil =>
    intro i s r hp
    exact ⟨rfl, rfl, rfl, le_refl _⟩
  | cons o t ih =>
    intro i s r hp
    simp only [runObjects]
    obtain ⟨p1, p2, p3, p4, p5⟩ :=
      stepObject_protected now sp (cr i) (vel i) s r o hp
    have hp' : (stepObject now sp (cr i) (vel i) (s, r) o).1.1.player.isInvincible
          = true ∨
        ((stepObject now sp (cr i) (vel i) (s, r) o).1.1.player.isJumping = true ∧
          0.08 < (stepObject now sp (cr i) (vel i) (s, r) o).1.1.player.jumpProgress ∧
          (stepObject now sp (cr i) (vel i) (s, r) o).1.1.player.jumpProgress < 0.92) := by
      rw [p1]
      exact hp
    have hih := ih (i + 1) (stepObject now sp (cr i) (vel i) (s, r) o).1.1
      (stepObject now sp (cr i) (vel i) (s, r) o).1.2 hp'
    simp only [Prod.mk.eta] at hih
    obtain ⟨g1, g2, g3, g4⟩ := hih
    refine ⟨g1.trans p1, g2.trans p2, g3.trans p3, ?_⟩
    rw [obstaclesResolved_cons, obstaclesResolved_cons]
    have hw : (if (stepObject now sp (cr i) (vel i) (s, r) o).2.isCollectible =
          false ∧ (stepObject now sp (cr i) (vel i) (s, r) o).2.collected = true
        then 1 else 0) ≤
        (if o.isCollectible = false ∧ o.collected = true then 1 else 0) := by
      by_cases hc : o.isCollectible = false
      · rw [p5 hc, p4]
      · have : (stepObject now sp (cr i) (vel i) (s, r) o).2.isCollectible ≠
            false := by
          rw [p4]
          exact hc
        simp [hc, this]
    omega

/-! ### Field bundles of the frame phases -/

lemma update_def (s : RunnerGameState) (env : FrameEnv) (dt t : ℚ) :
    update s env dt t =
      (let s3 := spawnPhase (invincibilityPhase (jumpPhase s t) t)
          env.spawnChoice t
       let q := runObjects t (s3.config.speed * 0.006) env.colorRoll env.vel
          (s3, ⟨[], [], false, false⟩) s3.objects 0
       let s4 := { q.1.1 with objects := q.2 }
       let r1 := q.1.2
       let sr :=
         if LEVEL_UP_SCORE ≤ s4.score - s4.lastLevelScore then
           ({ levelUp s4 with lastLevelScore := s4.score },
             { r1 with leveledUp := true })
         else (s4, r1)
       (updateParticles sr.1, sr.2)) := rfl

lemma jumpPhase_fields (s : RunnerGameState) (t : ℚ) :
    (jumpPhase s t).config = s.config ∧
    (jumpPhase s t).objects = s.objects ∧
    (jumpPhase s t).particles = s.particles ∧
    (jumpPhase s t).score = s.score ∧
    (jumpPhase s t).lastLevelScore = s.lastLevelScore ∧
    (jumpPhase s t).lastSpawnTime = s.lastSpawnTime ∧
    (jumpPhase s t).nextObjectId = s.nextObjectId ∧
    (jumpPhase s t).player.isInvincible = s.player.isInvincible ∧
    (jumpPhase s t).player.invincibleUntil = s.player.invincibleUntil ∧
    (jumpPhase s t).playerX = s.playerX ∧
    (jumpPhase s t).playerBodyWidth = s.playerBodyWidth := by
  obtain ⟨b, q, h⟩ := jumpPhase_shape s t
  rw [h]
  exact ⟨rfl, rfl, rfl, rfl, rfl, rfl, rfl, rfl, rfl, rfl, rfl⟩

lemma invincibilityPhase_fields (s : RunnerGameState) (t : ℚ) :
    (invincibilityPhase s t).config = s.config ∧
    (invincibilityPhase s t).objects = s.objects ∧
    (invincibilityPhase s t).particles = s.particles ∧
    (invincibilityPhase s t).score = s.score ∧
    (invincibilityPhase s t).lastLevelScore = s.lastLevelScore ∧
    (invincibilityPhase s t).lastSpawnTime = s.lastSpawnTime ∧
    (invincibilityPhase s t).nextObjectId = s.nextObjectId ∧
    (invincibilityPhase s t).player.isJumping = s.player.isJumping ∧
    (invincibilityPhase s t).player.jumpProgress = s.player.jumpProgress := by
  obtain ⟨b, h⟩ := invincibilityPhase_shape s t
  rw [h]
  exact ⟨rfl, rfl, rfl, rfl, rfl, rfl, rfl, rfl, rfl⟩

lemma spawnObject_fields (s : RunnerGameState) (c : SpawnChoice) :
    (spawnObject s c).config = s.config ∧
    (spawnObject s c).particles = s.particles ∧
    (spawnObject s c).score = s.score ∧
    (spawnObject s c).lastLevelScore = s.lastLevelScore ∧
    (spawnObject s c).player = s.player ∧
    (spawnObject s c).playerX = s.playerX ∧
    (spawnObject s c).playerBodyWidth = s.playerBodyWidth ∧
    (spawnObject s c).jumpStartTime = s.jumpStartTime := by
  obtain ⟨objs, nid, h⟩ := spawnObject_shape s c
  rw [h]
  exact ⟨rfl, rfl, rfl, rfl, rfl, rfl, rfl, rfl⟩

lemma spawnPhase_fields (s : RunnerGameState) (c : SpawnChoice) (t : ℚ) :
    (spawnPhase s c t).config = s.config ∧
    (spawnPhase s c t).particles = s.particles ∧
    (spawnPhase s c t).score = s.score ∧
    (spawnPhase s c t).lastLevelScore = s.lastLevelScore ∧
    (spawnPhase s c t).player = s.player ∧
    (spawnPhase s c t).playerX = s.playerX ∧
    (spawnPhase s c t).playerBodyWidth = s.playerBodyWidth := by
  rcases spawnPhase_cases s c t with h | h <;> rw [h]
  · exact ⟨rfl, rfl, rfl, rfl, rfl, rfl, rfl⟩
  · obtain ⟨objs, nid, hs⟩ := spawnObject_shape s c
    rw [hs]
    exact ⟨rfl, rfl, rfl, rfl, rfl, rfl, rfl⟩

lemma spawnObject_obstaclesResolved (s : RunnerGameState) (c : SpawnChoice) :
    obstaclesResolved (spawnObject s c).objects ≤ obstaclesResolved s.objects := by
  have h := spawnObject_countP s c (fun o => !o.isCollectible && o.collected)
  simpa [obstaclesResolved, freshObject] using h

lemma spawnPhase_obstaclesResolved (s : RunnerGameState) (c : SpawnChoice)
    (t : ℚ) :
    obstaclesResolved (spawnPhase s c t).objects ≤
      obstaclesResolved s.objects := by
  rcases spawnPhase_cases s c t with h | h <;> rw [h]
  exact spawnObject_obstaclesResolved s c

lemma spawnPhase_potential (s : RunnerGameState) (c : SpawnChoice) (t : ℚ)
    (n : Nat) :
    potential n (spawnPhase s c t) ≤ potential n s := by
  rcases spawnPhase_cases s c t with h | h <;> rw [h]
  exact spawnObject_potential s c n

lemma spawnPhase_len_le (s : RunnerGameState) (c : SpawnChoice) (t : ℚ)
    (h : s.objects.length ≤ MAX_OBJECTS) :
    (spawnPhase s c t).objects.length ≤ MAX_OBJECTS := by
  rcases spawnPhase_cases s c t with hc | hc <;> rw [hc]
  · exact h
  · exact spawnObject_len_le s c h

/-! ### Frame-level lemmas -/

lemma update_protected (s : RunnerGameState) (env : FrameEnv) (dt t : ℚ)
    (hp : (spawnPhase (invincibilityPhase (jumpPhase s t) t) env.spawnChoice
        t).player.isInvincible = true ∨
      ((spawnPhase (invincibilityPhase (jumpPhase s t) t) env.spawnChoice
          t).player.isJumping = true ∧
        0.08 < (spawnPhase (invincibilityPhase (jumpPhase s t) t) env.spawnChoice
          t).player.jumpProgress ∧
        (spawnPhase (invincibilityPhase (jumpPhase s t) t) env.spawnChoice
          t).player.jumpProgress < 0.92)) :
    (update s env dt t).1.config.lives =
      (spawnPhase (invincibilityPhase (jumpPhase s t) t) env.spawnChoice
        t).config.lives ∧
    (update s env dt t).2.crashed = [] ∧
    obstaclesResolved (update s env dt t).1.objects ≤
      obstaclesResolved (spawnPhase (invincibilityPhase (jumpPhase s t) t)
        env.spawnChoice t).objects := by
  obtain ⟨g1, g2, g3, g4⟩ := runObjects_protected t
    ((spawnPhase (invincibilityPhase (jumpPhase s t) t) env.spawnChoice
      t).config.speed * 0.006) env.colorRoll env.vel
    (spawnPhase (invincibilityPhase (jumpPhase s t) t) env.spawnChoice t).objects
    0 (spawnPhase (invincibilityPhase (jumpPhase s t) t) env.spawnChoice t)
    ⟨[], [], false, false⟩ hp
  rw [update_def]
  dsimp only
  split_ifs with hlvl
  · exact ⟨g2, g3, g4⟩
  · exact ⟨g2, g3, g4⟩

lemma update_potential (s : RunnerGameState) (env : FrameEnv) (dt t : ℚ)
    (n : Nat) :
    eventCount n (update s env dt t).2 + potential n (update s env dt t).1 ≤
      potential n s := by
  have hphase : potential n (spawnPhase (invincibilityPhase (jumpPhase s t) t)
      env.spawnChoice t) ≤ potential n s := by
    refine le_trans (spawnPhase_potential _ _ _ n) (le_of_eq ?_)
    obtain ⟨bj, qj, hj⟩ := jumpPhase_shape s t
    obtain ⟨bi, hi⟩ := invincibilityPhase_shape (jumpPhase s t) t
    rw [hi, hj]
    rfl
  have hcount := runObjects_count t
    ((spawnPhase (invincibilityPhase (jumpPhase s t) t) env.spawnChoice
      t).config.speed * 0.006) env.colorRoll env.vel n
    (spawnPhase (invincibilityPhase (jumpPhase s t) t) env.spawnChoice t).objects
    0 (spawnPhase (invincibilityPhase (jumpPhase s t) t) env.spawnChoice t)
    ⟨[], [], false, false⟩
  have hnid := (runObjects_frame t
    ((spawnPhase (invincibilityPhase (jumpPhase s t) t) env.spawnChoice
      t).config.speed * 0.006) env.colorRoll env.vel
    (spawnPhase (invincibilityPhase (jumpPhase s t) t) env.spawnChoice t).objects
    0 (spawnPhase (invincibilityPhase (jumpPhase s t) t) env.spawnChoice t)
    ⟨[], [], false, false⟩).2.1
  rw [update_def]
  dsimp only
  split_ifs with hlvl <;>
    (simp only [potential, eventCount, List.countP_nil] at hcount hphase ⊢;
     dsimp only [updateParticles, levelUp];
     rw [hnid] at *;
     omega)

lemma totalEvents_cons (n : Nat) (r : RunnerUpdateResult)
    (rs : List RunnerUpdateResult) :
    totalEvents n (r :: rs) = eventCount n r + totalEvents n rs := by
  simp [totalEvents]

lemma runFrames_potential (n : Nat) :
    ∀ (fs : List (FrameEnv × ℚ × ℚ)) (s : RunnerGameState),
      totalEvents n (runFrames s fs).2 + potential n (runFrames s fs).1 ≤
        potential n s := by
  intro fs
  induction fs with
  | nil =>
    intro s
    simp [runFrames, totalEvents]
  | cons f t ih =>
    intro s
    simp only [runFrames]
    rw [totalEvents_cons]
    have hstep := update_potential s f.1 f.2.1 f.2.2 n
    have hih := ih (update s f.1 f.2.1 f.2.2).1
    omega

lemma countP_le_one_of_nodup {α : Type} (f : α → Nat) (q : α → Bool) (n : Nat) :
    ∀ l : List α, (l.map f).Nodup →
      l.countP (fun x => f x == n && q x) ≤ 1 := by
  intro l
  induction l with
  | nil => intro h; simp
  | cons x t ih =>
    intro h
    rw [List.map_cons, List.nodup_cons] at h
    rw [List.countP_cons]
    by_cases hx : (f x == n && q x) = true
    · have hx' : f x = n ∧ q x = true := by simpa using hx
      have hfx : f x = n := hx'.1
      have ht : t.countP (fun y => f y == n && q y) = 0 := by
        apply List.countP_eq_zero.mpr
        intro y hy
        have hne : f y ≠ n := by
          intro hfy
          exact h.1 (by rw [hfx, ← hfy]; exact List.mem_map_of_mem f hy)
        simp [hne]
      simp [hx, ht]
    · rw [if_neg hx]
      have := ih h.2
      omega

lemma potential_le_one (s : RunnerGameState) (n : Nat)
    (hid : (s.objects.map (fun o => o.id)).Nodup)
    (hlt : ∀ o ∈ s.objects, o.id < s.nextObjectId) :
    potential n s ≤ 1 := by
  by_cases hn : s.nextObjectId ≤ n
  · have hz : unresolvedCount n s.objects = 0 := by
      apply List.countP_eq_zero.mpr
      intro o ho
      have : o.id ≠ n := Nat.ne_of_lt (lt_of_lt_of_le (hlt o ho) hn)
      simp [this]
    simp [potential, hz, hn]
  · have hle : unresolvedCount n s.objects ≤ 1 := by
      have h := countP_le_one_of_nodup (fun o => o.id) (fun o => !o.collected) n
        s.objects hid
      simpa [unresolvedCount] using h
    simp only [potential, if_neg hn]
    omega

/-- C1: for any well-formed starting state (pairwise-distinct pooled ids, all
below `nextObjectId`), across any run of frames, the number of judgement
events (collected or crashed, each with its score/lives mutation and event
emission) carrying a given object id is at most one.  A pooled slot gets a
fresh id on every reactivation, so an id names one active lifetime, and the
band-based evaluation can fire for it at most once no matter how many frames
the object spends inside the collision band. -/
theorem resolution_at_most_once (s : RunnerGameState)
    (hid : (s.objects.map (fun o => o.id)).Nodup)
    (hlt : ∀ o ∈ s.objects, o.id < s.nextObjectId)
    (fs : List (FrameEnv × ℚ × ℚ)) (n : Nat) :
    totalEvents n (runFrames s fs).2 ≤ 1 := by
  have h1 := runFrames_potential n fs s
  have h2 := potential_le_one s n hid hlt
  omega

/-- Witness for C1 at a concrete well-formed state and a concrete two-frame
run (the first frame spawns an object, the second moves it). -/
theorem resolution_at_most_once_witness :
    (((init 800 600).objects.map (fun o => o.id)).Nodup ∧
      ∀ o ∈ (init 800 600).objects, o.id < (init 800 600).nextObjectId) ∧
    totalEvents 0
      (runFrames (init 800 600) [(env0, 16, 2000), (env0, 16, 2100)]).2 ≤ 1 :=
  ⟨⟨by simp [init], by intro o ho; simp [init] at ho⟩,
    resolution_at_most_once (init 800 600) (by simp [init])
      (by intro o ho; simp [init] at ho) [(env0, 16, 2000), (env0, 16, 2100)] 0⟩

lemma phases_config (s : RunnerGameState) (env : FrameEnv) (t : ℚ) :
    (spawnPhase (invincibilityPhase (jumpPhase s t) t) env.spawnChoice
      t).config = s.config := by
  rw [(spawnPhase_fields _ _ _).1, (invincibilityPhase_fields _ _).1,
    (jumpPhase_fields _ _).1]

lemma phases_obstaclesResolved (s : RunnerGameState) (env : FrameEnv) (t : ℚ) :
    obstaclesResolved (spawnPhase (invincibilityPhase (jumpPhase s t) t)
      env.spawnChoice t).objects ≤ obstaclesResolved s.objects := by
  refine le_trans (spawnPhase_obstaclesResolved _ _ _) (le_of_eq ?_)
  rw [(invincibilityPhase_fields _ _).2.1, (jumpPhase_fields _ _).2.1]

lemma phases_keep_invincible (s : RunnerGameState) (env : FrameEnv) (t : ℚ)
    (hinv : s.player.isInvincible = true) (hdl : t ≤ s.player.invincibleUntil) :
    (spawnPhase (invincibilityPhase (jumpPhase s t) t) env.spawnChoice
      t).player.isInvincible = true := by
  obtain ⟨b, q, hj⟩ := jumpPhase_shape s t
  have hkeep : invincibilityPhase (jumpPhase s t) t = jumpPhase s t := by
    apply invincibilityPhase_keep
    rw [hj]
    exact hdl
  rw [(spawnPhase_fields _ _ _).2.2.2.2.1, hkeep, hj]
  exact hinv

lemma phases_jump_window (s : RunnerGameState) (env : FrameEnv) (t : ℚ)
    (hj : s.player.isJumping = true)
    (h1 : 0.08 < (t - s.jumpStartTime) / JUMP_DURATION)
    (h2 : (t - s.jumpStartTime) / JUMP_DURATION < 0.92) :
    (spawnPhase (invincibilityPhase (jumpPhase s t) t) env.spawnChoice
      t).player.isJumping = true ∧
    0.08 < (spawnPhase (invincibilityPhase (jumpPhase s t) t) env.spawnChoice
      t).player.jumpProgress ∧
    (spawnPhase (invincibilityPhase (jumpPhase s t) t) env.spawnChoice
      t).player.jumpProgress < 0.92 := by
  have hq1 : (t - s.jumpStartTime) / JUMP_DURATION < 1 := lt_trans h2 (by norm_num)
  rw [(spawnPhase_fields _ _ _).2.2.2.2.1, jumpPhase_mid s t hj hq1]
  rw [(invincibilityPhase_fields _ _).2.2.2.2.2.2.2.1,
    (invincibilityPhase_fields _ _).2.2.2.2.2.2.2.2]
  exact ⟨hj, h1, h2⟩

/-- C2 (amended): while the player is invincible and the deadline has not
passed, a frame leaves lives unchanged, emits no crashed events, and does
not mark any obstacle resolved (the source skips the judgement entirely
rather than marking the object, so the count of resolved obstacles cannot
grow).  Invincibility suppresses new damage; collectibles still score. -/
theorem invincible_overlap_no_damage (s : RunnerGameState) (env : FrameEnv)
    (dt t : ℚ) (hinv : s.player.isInvincible = true)
    (hdl : t ≤ s.player.invincibleUntil) :
    (update s env dt t).1.config.lives = s.config.lives ∧
    (update s env dt t).2.crashed = [] ∧
    obstaclesResolved (update s env dt t).1.objects ≤
      obstaclesResolved s.objects := by
  have hkeep := phases_keep_invincible s env t hinv hdl
  obtain ⟨u1, u2, u3⟩ := update_protected s env dt t (Or.inl hkeep)
  refine ⟨?_, u2, le_trans u3 (phases_obstaclesResolved s env t)⟩
  rw [u1, phases_config]

/-- Witness for C2 (amended) at the concrete invincible state with a barrier
overlapping inside the band. -/
theorem invincible_overlap_no_damage_witness :
    (stInvincible.player.isInvincible = true ∧
      (100 : ℚ) ≤ stInvincible.player.invincibleUntil) ∧
    ((update stInvincible env0 16 100).1.config.lives =
        stInvincible.config.lives ∧
      (update stInvincible env0 16 100).2.crashed = [] ∧
      obstaclesResolved (update stInvincible env0 16 100).1.objects ≤
        obstaclesResolved stInvincible.objects) :=
  ⟨⟨rfl, by with_unfolding_all decide⟩,
    invincible_overlap_no_damage stInvincible env0 16 100 rfl
      (by with_unfolding_all decide)⟩

set_option maxRecDepth 10000 in
/-- C2 counterexample: the claim says an obstacle overlap during
invincibility leaves the object marked resolved.  At this concrete state the
barrier is active, unresolved, inside the band after the frame's movement,
and horizontally overlaps the invincible player - yet after `update` it is
still unresolved (`collected = false`), and may be judged again later. -/
theorem invincible_overlap_not_marked_resolved :
    stInvincible.player.isInvincible = true ∧
    (100 : ℚ) ≤ stInvincible.player.invincibleUntil ∧
    stInvincible.objects = [barrier60] ∧
    barrier60.active = true ∧ barrier60.collected = false ∧
    barrier60.isCollectible = false ∧
    collisionZoneStart ≤ barrier60.z + stInvincible.config.speed * 0.006 ∧
    barrier60.z + stInvincible.config.speed * 0.006 ≤ collisionZoneEnd ∧
    stInvincible.playerX + stInvincible.playerBodyWidth / 2 >
      getLaneXNormalized barrier60.lane - 0.06 * (barrier60.size / 100) ∧
    stInvincible.playerX - stInvincible.playerBodyWidth / 2 <
      getLaneXNormalized barrier60.lane + 0.06 * (barrier60.size / 100) ∧
    ((update stInvincible env0 16 100).1.objects.map (fun o => o.collected)) =
      [false] := by
  with_unfolding_all decide

/-- C3 (amended): while the player is mid-jump with the recomputed jump
progress strictly inside the (0.08, 0.92) window (and not invincible), a
frame is a successful dodge as far as damage goes: lives unchanged, no
crashed events, no obstacle marked resolved.  The source however does not
mark the dodged object either - it stays unresolved and can be judged again
on a later frame of the same band transit. -/
theorem jump_window_dodge_no_damage (s : RunnerGameState) (env : FrameEnv)
    (dt t : ℚ) (hj : s.player.isJumping = true)
    (hinv : s.player.isInvincible = false)
    (h1 : 0.08 < (t - s.jumpStartTime) / JUMP_DURATION)
    (h2 : (t - s.jumpStartTime) / JUMP_DURATION < 0.92) :
    (update s env dt t).1.config.lives = s.config.lives ∧
    (update s env dt t).2.crashed = [] ∧
    obstaclesResolved (update s env dt t).1.objects ≤
      obstaclesResolved s.objects := by
  have hwin := phases_jump_window s env t hj h1 h2
  obtain ⟨u1, u2, u3⟩ := update_protected s env dt t (Or.inr hwin)
  refine ⟨?_, u2, le_trans u3 (phases_obstaclesResolved s env t)⟩
  rw [u1, phases_config]

/-- Witness for C3 (amended): at t = 350 the jump started at 0 has progress
0.5, inside the window, with the barrier overlapping inside the band. -/
theorem jump_window_dodge_no_damage_witness :
    (stJumping.player.isJumping = true ∧
      stJumping.player.isInvincible = false ∧
      (0.08 : ℚ) < ((350 : ℚ) - stJumping.jumpStartTime) / JUMP_DURATION ∧
      ((350 : ℚ) - stJumping.jumpStartTime) / JUMP_DURATION < 0.92) ∧
    ((update stJumping env0 16 350).1.config.lives = stJumping.config.lives ∧
      (update stJumping env0 16 350).2.crashed = [] ∧
      obstaclesResolved (update stJumping env0 16 350).1.objects ≤
        obstaclesResolved stJumping.objects) :=
  ⟨⟨rfl, rfl, by with_unfolding_all decide, by with_unfolding_all decide⟩,
    jump_window_dodge_no_damage stJumping env0 16 350 rfl rfl
      (by with_unfolding_all decide) (by with_unfolding_all decide)⟩

set_option maxRecDepth 10000 in
/-- C3 counterexample: the claim says a dodged obstacle is marked resolved.
At this concrete state the player is mid-jump with progress 0.5 (strictly
inside (0.08, 0.92)), the barrier overlaps inside the band, no crash happens
- but after `update` the object is still unresolved (`collected = false`),
contradicting the claimed marking. -/
theorem jump_window_dodge_not_marked_resolved :
    stJumping.player.isJumping = true ∧
    stJumping.player.isInvincible = false ∧
    ((350 : ℚ) - stJumping.jumpStartTime) / JUMP_DURATION = 0.5 ∧
    stJumping.objects = [barrier60] ∧
    barrier60.active = true ∧ barrier60.collected = false ∧
    barrier60.isCollectible = false ∧
    collisionZoneStart ≤ barrier60.z + stJumping.config.speed * 0.006 ∧
    barrier60.z + stJumping.config.speed * 0.006 ≤ collisionZoneEnd ∧
    stJumping.playerX + stJumping.playerBodyWidth / 2 >
      getLaneXNormalized barrier60.lane - 0.06 * (barrier60.size / 100) ∧
    stJumping.playerX - stJumping.playerBodyWidth / 2 <
      getLaneXNormalized barrier60.lane + 0.06 * (barrier60.size / 100) ∧
    (update stJumping env0 16 350).2.crashed = [] ∧
    ((update stJumping env0 16 350).1.objects.map (fun o => o.collected)) =
      [false] := by
  with_unfolding_all decide

lemma collideObject_crash (now : ℚ) (cr : Nat → Nat) (vel : Nat → ℚ × ℚ)
    (s : RunnerGameState) (r : RunnerUpdateResult) (o : RunnerObject)
    (hobs : o.isCollectible = false) (hinv : s.player.isInvincible = false)
    (hnw : ¬(s.player.isJumping = true ∧ 0.08 < s.player.jumpProgress ∧
      s.player.jumpProgress < 0.92)) :
    collideObject now cr vel (s, r) o =
      (({ s with config := { s.config with lives := s.config.lives - 1 }, player := { s.player with isInvincible := true, invincibleUntil := now + 1500 } },
        if s.config.lives - 1 ≤ 0 then
          { r with crashed := r.crashed ++ [{ o with collected := true }], gameOver := true }
        else { r with crashed := r.crashed ++ [{ o with collected := true }] }),
      { o with collected := true }) := by
  simp only [collideObject]
  rw [if_neg (by simp [hobs]), if_pos hinv, if_neg hnw]

lemma stepObject_crash (now sp : ℚ) (cr : Nat → Nat) (vel : Nat → ℚ × ℚ)
    (s : RunnerGameState) (r : RunnerUpdateResult) (o : RunnerObject)
    (hact : o.active = true) (hcol : o.collected = false)
    (hobs : o.isCollectible = false)
    (hb1 : collisionZoneStart ≤ o.z + sp) (hb2 : o.z + sp ≤ collisionZoneEnd)
    (hov : s.playerX + s.playerBodyWidth / 2 >
        getLaneXNormalized o.lane - 0.06 * (o.size / 100) ∧
      s.playerX - s.playerBodyWidth / 2 <
        getLaneXNormalized o.lane + 0.06 * (o.size / 100))
    (hinv : s.player.isInvincible = false)
    (hnw : ¬(s.player.isJumping = true ∧ 0.08 < s.player.jumpProgress ∧
      s.player.jumpProgress < 0.92)) :
    stepObject now sp cr vel (s, r) o =
      (({ s with config := { s.config with lives := s.config.lives - 1 }, player := { s.player with isInvincible := true, invincibleUntil := now + 1500 } },
        if s.config.lives - 1 ≤ 0 then
          { r with crashed := r.crashed ++ [{ o with z := o.z + sp, collected := true }], gameOver := true }
        else
          { r with crashed :=
              r.crashed ++ [{ o with z := o.z + sp, collected := true }] }),
      { o with z := o.z + sp, collected := true }) := by
  have hpast : ¬(o.z + sp > 1.15) := by
    rw [not_lt]
    refine le_trans hb2 ?_
    norm_num [collisionZoneEnd]
  simp only [stepObject]
  rw [if_neg (by simp [hact]), if_neg hpast, if_pos ⟨hcol, hb1, hb2⟩]
  simp only [hobs, Bool.false_eq_true, if_false]
  rw [if_pos hov]
  rw [collideObject_crash now cr vel s r _ (by simpa using hobs) hinv hnw]

lemma jumpPhase_no_window (s : RunnerGameState) (t : ℚ)
    (hnw : ¬(s.player.isJumping = true ∧
      0.08 < min 1 ((t - s.jumpStartTime) / JUMP_DURATION) ∧
      min 1 ((t - s.jumpStartTime) / JUMP_DURATION) < 0.92)) :
    ¬((jumpPhase s t).player.isJumping = true ∧
      0.08 < (jumpPhase s t).player.jumpProgress ∧
      (jumpPhase s t).player.jumpProgress < 0.92) := by
  by_cases hj : s.player.isJumping = true
  · simp only [jumpPhase]
    rw [if_pos hj]
    by_cases h1 : (1 : ℚ) ≤ min 1 ((t - s.jumpStartTime) / JUMP_DURATION)
    · rw [if_pos h1]
      intro hcon
      exact absurd hcon.1 (by simp)
    · rw [if_neg h1]
      intro hcon
      exact hnw ⟨hj, hcon.2.1, hcon.2.2⟩
  · rw [jumpPhase_not s t (by simpa using hj)]
    intro hcon
    exact hj hcon.1

/-- C4: when one pooled obstacle overlaps the player inside the collision
band while the player is neither invincible nor jumping, the frame marks the
object resolved, decrements lives by exactly one, makes the player
invincible with the deadline set to exactly now + 1500 ms, lists the object
in the crashed event batch, and reports game over when lives thereby reach
zero. -/
theorem obstacle_crash_effects (s : RunnerGameState) (env : FrameEnv)
    (dt t : ℚ) (o : RunnerObject)
    (hobjs : s.objects = [o])
    (hact : o.active = true) (hcol : o.collected = false)
    (hobs : o.isCollectible = false)
    (hinv : s.player.isInvincible = false)
    (hnw : ¬(s.player.isJumping = true ∧
      0.08 < min 1 ((t - s.jumpStartTime) / JUMP_DURATION) ∧
      min 1 ((t - s.jumpStartTime) / JUMP_DURATION) < 0.92))
    (hns : t - s.lastSpawnTime ≤ s.config.spawnInterval)
    (hb1 : collisionZoneStart ≤ o.z + s.config.speed * 0.006)
    (hb2 : o.z + s.config.speed * 0.006 ≤ collisionZoneEnd)
    (hov1 : s.playerX + s.playerBodyWidth / 2 >
      getLaneXNormalized o.lane - 0.06 * (o.size / 100))
    (hov2 : s.playerX - s.playerBodyWidth / 2 <
      getLaneXNormalized o.lane + 0.06 * (o.size / 100)) :
    (update s env dt t).1.config.lives = s.config.lives - 1 ∧
    (update s env dt t).1.player.isInvincible = true ∧
    (update s env dt t).1.player.invincibleUntil = t + 1500 ∧
    (update s env dt t).2.crashed =
      [{ o with z := o.z + s.config.speed * 0.006, collected := true }] ∧
    (s.config.lives = 1 → (update s env dt t).2.gameOver = true) ∧
    (update s env dt t).1.objects =
      [{ o with z := o.z + s.config.speed * 0.006, collected := true }] := by
  have hJf := jumpPhase_fields s t
  have hJinv : (jumpPhase s t).player.isInvincible = false :=
    hJf.2.2.2.2.2.2.2.1.trans hinv
  have hJnw := jumpPhase_no_window s t hnw
  have h23 : spawnPhase (invincibilityPhase (jumpPhase s t) t) env.spawnChoice t
      = jumpPhase s t := by
    rw [invincibilityPhase_false _ t hJinv]
    apply spawnPhase_no
    rw [hJf.2.2.2.2.2.1, hJf.1]
    exact hns
  have hcrash := stepObject_crash t (s.config.speed * 0.006) (env.colorRoll 0)
    (env.vel 0) (jumpPhase s t) ⟨[], [], false, false⟩ o hact hcol hobs hb1 hb2
    ⟨by rw [hJf.2.2.2.2.2.2.2.2.2.1, hJf.2.2.2.2.2.2.2.2.2.2]; exact hov1,
      by rw [hJf.2.2.2.2.2.2.2.2.2.1, hJf.2.2.2.2.2.2.2.2.2.2]; exact hov2⟩
    hJinv hJnw
  rw [update_def]
  dsimp only
  rw [h23, hJf.2.1, hobjs, hJf.1]
  simp only [runObjects]
  rw [hcrash]
  split_ifs with hgo hlvl hlvl
  · exact ⟨by rw [hJf.1]; rfl, rfl, rfl, rfl, fun _ => rfl, rfl⟩
  · exact ⟨by rw [hJf.1]; rfl, rfl, rfl, rfl, fun _ => rfl, rfl⟩
  · exact ⟨by rw [hJf.1]; rfl, rfl, rfl, rfl,
      fun h => absurd h (by rw [hJf.1] at hgo; omega), rfl⟩
  · exact ⟨by rw [hJf.1]; rfl, rfl, rfl, rfl,
      fun h => absurd h (by rw [hJf.1] at hgo; omega), rfl⟩

/-- Witness for C4 at the concrete fresh state with a single center-lane
barrier inside the band: lives 3 → 2, deadline 100 + 1500 = 1600. -/
theorem obstacle_crash_effects_witness :
    (stObstacle.objects = [barrier60] ∧ barrier60.active = true ∧
      barrier60.collected = false ∧ barrier60.isCollectible = false ∧
      stObstacle.player.isInvincible = false ∧
      ¬(stObstacle.player.isJumping = true ∧
        (0.08 : ℚ) < min 1 (((100 : ℚ) - stObstacle.jumpStartTime) /
          JUMP_DURATION) ∧
        min 1 (((100 : ℚ) - stObstacle.jumpStartTime) / JUMP_DURATION) <
          0.92)) ∧
    ((update stObstacle env0 16 100).1.config.lives =
        stObstacle.config.lives - 1 ∧
      (update stObstacle env0 16 100).1.player.isInvincible = true ∧
      (update stObstacle env0 16 100).1.player.invincibleUntil =
        (100 : ℚ) + 1500 ∧
      (update stObstacle env0 16 100).2.crashed =
        [{ barrier60 with z := barrier60.z + stObstacle.config.speed * 0.006, collected := true }] ∧
      (stObstacle.config.lives = 1 →
        (update stObstacle env0 16 100).2.gameOver = true) ∧
      (update stObstacle env0 16 100).1.objects =
        [{ barrier60 with z := barrier60.z + stObstacle.config.speed * 0.006, collected := true }]) :=
  ⟨⟨rfl, rfl, rfl, rfl, rfl, by with_unfolding_all decide⟩,
    obstacle_crash_effects stObstacle env0 16 100 barrier60 rfl rfl rfl rfl rfl
      (by with_unfolding_all decide) (by with_unfolding_all decide)
      (by with_unfolding_all decide) (by with_unfolding_all decide)
      (by with_unfolding_all decide) (by with_unfolding_all decide)⟩

set_option maxRecDepth 10000 in
/-- C5 (code bug): `update` has no game-over guard.  At a state with lives
already 0, a further `update` still collects an overlapping coin and raises
the score, and at a state with an overlapping obstacle it decrements lives
to -1.  The spec requires the core to be inert on score and lives once the
game is over. -/
theorem update_after_game_over_not_inert :
    stDeadCoin.config.lives = 0 ∧
    (update stDeadCoin env0 16 100).1.score = stDeadCoin.score + 1 ∧
    stDeadObstacle.config.lives = 0 ∧
    (update stDeadObstacle env0 16 100).1.config.lives = -1 := by
  with_unfolding_all decide

/-- C6 (amended): in one frame the level rises by at most one; when the
level-up fires, the baseline `lastLevelScore` is reset to the frame's final
score, so any surplus beyond the 500-point threshold is discarded rather
than carried toward the next level-up; when it does not fire, level and
baseline are untouched. -/
theorem levelup_single_step_baseline_reset (s : RunnerGameState)
    (env : FrameEnv) (dt t : ℚ) :
    (update s env dt t).1.config.level ≤ s.config.level + 1 ∧
    ((update s env dt t).2.leveledUp = true →
      (update s env dt t).1.config.level = s.config.level + 1 ∧
      (update s env dt t).1.lastLevelScore = (update s env dt t).1.score) ∧
    ((update s env dt t).2.leveledUp = false →
      (update s env dt t).1.config.level = s.config.level ∧
      (update s env dt t).1.lastLevelScore = s.lastLevelScore) := by
  have hframe := runObjects_frame t
    ((spawnPhase (invincibilityPhase (jumpPhase s t) t) env.spawnChoice
      t).config.speed * 0.006) env.colorRoll env.vel
    (spawnPhase (invincibilityPhase (jumpPhase s t) t) env.spawnChoice t).objects
    0 (spawnPhase (invincibilityPhase (jumpPhase s t) t) env.spawnChoice t)
    ⟨[], [], false, false⟩
  have hlev : (runObjects t
      ((spawnPhase (invincibilityPhase (jumpPhase s t) t) env.spawnChoice
        t).config.speed * 0.006) env.colorRoll env.vel
      (spawnPhase (invincibilityPhase (jumpPhase s t) t) env.spawnChoice t,
        ⟨[], [], false, false⟩)
      (spawnPhase (invincibilityPhase (jumpPhase s t) t) env.spawnChoice
        t).objects 0).1.1.config.level = s.config.level := by
    refine hframe.2.2.2.2.1.trans ?_
    rw [phases_config]
  have hlls : (runObjects t
      ((spawnPhase (invincibilityPhase (jumpPhase s t) t) env.spawnChoice
        t).config.speed * 0.006) env.colorRoll env.vel
      (spawnPhase (invincibilityPhase (jumpPhase s t) t) env.spawnChoice t,
        ⟨[], [], false, false⟩)
      (spawnPhase (invincibilityPhase (jumpPhase s t) t) env.spawnChoice
        t).objects 0).1.1.lastLevelScore = s.lastLevelScore := by
    refine hframe.2.2.1.trans ?_
    rw [(spawnPhase_fields _ _ _).2.2.2.1, (invincibilityPhase_fields _ _).2.2.2.2.1,
      (jumpPhase_fields _ _).2.2.2.2.1]
  have hlvlup : (runObjects t
      ((spawnPhase (invincibilityPhase (jumpPhase s t) t) env.spawnChoice
        t).config.speed * 0.006) env.colorRoll env.vel
      (spawnPhase (invincibilityPhase (jumpPhase s t) t) env.spawnChoice t,
        ⟨[], [], false, false⟩)
      (spawnPhase (invincibilityPhase (jumpPhase s t) t) env.spawnChoice
        t).objects 0).1.2.leveledUp = false := hframe.2.2.2.2.2.2.2.2.2.2
  rw [update_def]
  dsimp only
  split_ifs with hlvl
  · refine ⟨?_, fun _ => ⟨?_, rfl⟩, fun hf => absurd hf (by simp)⟩
    · dsimp only [updateParticles, levelUp]
      rw [hlev]
    · dsimp only [updateParticles, levelUp]
      rw [hlev]
  · refine ⟨?_, fun hf => absurd hf (by simp [hlvlup]), fun _ => ⟨?_, ?_⟩⟩
    · dsimp only [updateParticles]
      rw [hlev]
      omega
    · dsimp only [updateParticles]
      exact hlev
    · dsimp only [updateParticles]
      exact hlls

set_option maxRecDepth 10000 in
/-- C6 counterexample: at score 499 with baseline 0, collecting a gem takes
the score to 509 and fires the level-up, but the stored baseline becomes 509
- the post-frame progress toward the next level is 0, not the surplus 9 the
claim says is carried forward (the next level-up needs a further full 500
points from 509, not from the crossed threshold 500). -/
theorem levelup_surplus_discarded :
    stGem499.score = 499 ∧ stGem499.lastLevelScore = 0 ∧
    (update stGem499 env0 16 100).2.leveledUp = true ∧
    (update stGem499 env0 16 100).1.score = 509 ∧
    (update stGem499 env0 16 100).1.lastLevelScore = 509 ∧
    ¬((update stGem499 env0 16 100).1.score -
        (update stGem499 env0 16 100).1.lastLevelScore = 9) := by
  with_unfolding_all decide

/-- Witness for C6 (amended): the gem-collection frame that crosses the
threshold levels up exactly once and resets the baseline to the new score. -/
theorem levelup_single_step_witness :
    (update stGem499 env0 16 100).2.leveledUp = true ∧
    ((update stGem499 env0 16 100).1.config.level =
        stGem499.config.level + 1 ∧
      (update stGem499 env0 16 100).1.lastLevelScore =
        (update stGem499 env0 16 100).1.score) :=
  ⟨by with_unfolding_all decide,
    (levelup_single_step_baseline_reset stGem499 env0 16 100).2.1
      (by with_unfolding_all decide)⟩

lemma setPlayerPosition_objects (s : RunnerGameState) (a b c : ℚ) :
    (setPlayerPosition s a b c).objects = s.objects := rfl

lemma triggerJump_objects (s : RunnerGameState) (t : ℚ) :
    (triggerJump s t).objects = s.objects := by
  unfold triggerJump
  split_ifs <;> rfl

lemma setPlayerPosition_particles (s : RunnerGameState) (a b c : ℚ) :
    (setPlayerPosition s a b c).particles = s.particles := rfl

lemma triggerJump_particles (s : RunnerGameState) (t : ℚ) :
    (triggerJump s t).particles = s.particles := by
  unfold triggerJump
  split_ifs <;> rfl

lemma objects_len_le_of_reachable (s : RunnerGameState) (h : Reachable s) :
    s.objects.length ≤ MAX_OBJECTS := by
  induction h with
  | init w hh => simp [init, MAX_OBJECTS]
  | update s env dt t hs ih =>
    have hlen := (runObjects_frame t
      ((spawnPhase (invincibilityPhase (jumpPhase s t) t) env.spawnChoice
        t).config.speed * 0.006) env.colorRoll env.vel
      (spawnPhase (invincibilityPhase (jumpPhase s t) t) env.spawnChoice
        t).objects 0
      (spawnPhase (invincibilityPhase (jumpPhase s t) t) env.spawnChoice t)
      ⟨[], [], false, false⟩).2.2.2.2.2.2.2.2.2.1
    have hs3 : (spawnPhase (invincibilityPhase (jumpPhase s t) t)
        env.spawnChoice t).objects.length ≤ MAX_OBJECTS := by
      refine spawnPhase_len_le _ _ _ ?_
      rw [(invincibilityPhase_fields _ _).2.1, (jumpPhase_fields _ _).2.1]
      exact ih
    rw [update_def]
    dsimp only
    split_ifs with hlvl <;>
      (dsimp only [updateParticles, levelUp]; rw [hlen]; exact hs3)
  | setPlayerPosition s a b c hs ih =>
    rw [setPlayerPosition_objects]
    exact ih
  | triggerJump s t hs ih =>
    rw [triggerJump_objects]
    exact ih
  | updateDimensions s w hh hs ih => exact ih
  | reset s hs ih => simp [reset]

/-- C7: the spawner prefers reusing an inactive pooled slot (when one
exists the pool is rewritten in place with no growth), appends a new slot
only when no slot is inactive and the pool is below the 20-slot capacity,
silently skips the spawn with no state change at all when the pool is at
capacity with no inactive slot, and every state reachable through the
public interface keeps the pool within capacity. -/
theorem spawn_pool_discipline (s : RunnerGameState) (c : SpawnChoice) :
    (s.objects.any (fun o => !o.active) = true →
      ∃ objs, reuseFirstInactive (fun o => o.active) (fun _ => freshObject s c)
          s.objects = some objs ∧
        (spawnObject s c).objects = objs ∧
        objs.length = s.objects.length) ∧
    (s.objects.any (fun o => !o.active) = false →
      s.objects.length < MAX_OBJECTS →
      (spawnObject s c).objects.length = s.objects.length + 1) ∧
    (s.objects.any (fun o => !o.active) = false →
      MAX_OBJECTS ≤ s.objects.length → spawnObject s c = s) ∧
    (Reachable s → s.objects.length ≤ MAX_OBJECTS) := by
  refine ⟨?_, fun h1 h2 => spawnObject_append s c h1 h2,
    fun h1 h2 => spawnObject_skip s c h1 h2,
    fun hr => objects_len_le_of_reachable s hr⟩
  intro h
  rcases spawnObject_cases s c with ⟨objs, hr, heq⟩ | ⟨hr, _, _⟩ | ⟨hr, _, _⟩
  · exact ⟨objs, hr, by rw [heq],
      by simpa using reuseFirstInactive_some_length _ _ _ _ hr⟩
  · rw [reuseFirstInactive_none_iff] at hr
    rw [hr] at h
    cases h
  · rw [reuseFirstInactive_none_iff] at hr
    rw [hr] at h
    cases h

/-- Witness for C7: reuse at a one-inactive-slot pool, skip at a full all-
active pool, and the capacity bound at the freshly constructed state. -/
theorem spawn_pool_discipline_witness :
    (stInactiveSlot.objects.any (fun o => !o.active) = true ∧
      (∃ objs, reuseFirstInactive (fun o => o.active)
          (fun _ => freshObject stInactiveSlot env0.spawnChoice)
          stInactiveSlot.objects = some objs ∧
        (spawnObject stInactiveSlot env0.spawnChoice).objects = objs ∧
        objs.length = stInactiveSlot.objects.length)) ∧
    (stFullPool.objects.any (fun o => !o.active) = false ∧
      MAX_OBJECTS ≤ stFullPool.objects.length ∧
      spawnObject stFullPool env0.spawnChoice = stFullPool) ∧
    (init 800 600).objects.length ≤ MAX_OBJECTS :=
  ⟨⟨by with_unfolding_all decide,
      (spawn_pool_discipline stInactiveSlot env0.spawnChoice).1
        (by with_unfolding_all decide)⟩,
    ⟨by with_unfolding_all decide, by with_unfolding_all decide,
      (spawn_pool_discipline stFullPool env0.spawnChoice).2.2.1
        (by with_unfolding_all decide) (by with_unfolding_all decide)⟩,
    (spawn_pool_discipline (init 800 600) env0.spawnChoice).2.2.2
      (Reachable.init 800 600)⟩

lemma update_monotone (s : RunnerGameState) (env : FrameEnv) (dt t : ℚ) :
    s.score ≤ (update s env dt t).1.score ∧
    (update s env dt t).1.config.lives ≤ s.config.lives ∧
    (update s env dt t).1.config.maxLives = s.config.maxLives := by
  have hframe := runObjects_frame t
    ((spawnPhase (invincibilityPhase (jumpPhase s t) t) env.spawnChoice
      t).config.speed * 0.006) env.colorRoll env.vel
    (spawnPhase (invincibilityPhase (jumpPhase s t) t) env.spawnChoice
      t).objects 0
    (spawnPhase (invincibilityPhase (jumpPhase s t) t) env.spawnChoice t)
    ⟨[], [], false, false⟩
  have hcfg := phases_config s env t
  have hsc : (spawnPhase (invincibilityPhase (jumpPhase s t) t) env.spawnChoice
      t).score = s.score := by
    rw [(spawnPhase_fields _ _ _).2.2.1, (invincibilityPhase_fields _ _).2.2.2.1,
      (jumpPhase_fields _ _).2.2.2.1]
  have hlv := le_trans hframe.2.2.2.2.2.2.1 (le_of_eq (by rw [hcfg]))
  have hscq := le_trans (le_of_eq hsc.symm) hframe.2.2.2.2.2.2.2.1
  have hml := hframe.2.2.2.2.2.1.trans (by rw [hcfg])
  rw [update_def]
  dsimp only
  split_ifs with hlvl <;>
    (dsimp only [updateParticles, levelUp]; exact ⟨hscq, hlv, hml⟩)

lemma applyOp_monotone (s : RunnerGameState) (op : GameOp) :
    s.score ≤ (applyOp s op).score ∧
    (applyOp s op).config.lives ≤ s.config.lives ∧
    (applyOp s op).config.maxLives = s.config.maxLives := by
  cases op with
  | update env dt t => exact update_monotone s env dt t
  | setPlayerPosition a b c => exact ⟨le_refl _, le_refl _, rfl⟩
  | triggerJump t =>
    show s.score ≤ (triggerJump s t).score ∧
      (triggerJump s t).config.lives ≤ s.config.lives ∧
      (triggerJump s t).config.maxLives = s.config.maxLives
    unfold triggerJump
    split_ifs <;> exact ⟨le_refl _, le_refl _, rfl⟩
  | updateDimensions w h => exact ⟨le_refl _, le_refl _, rfl⟩

/-- C8: across any sequence of public operations other than `reset`
(frames, player-position input, jump triggers, canvas resizes), the score
never decreases and the lives counter never increases; `maxLives` is
untouched, and only an explicit `reset` restores lives to `maxLives`. -/
theorem score_lives_monotone (s : RunnerGameState) (ops : List GameOp) :
    s.score ≤ (applyOps s ops).score ∧
    (applyOps s ops).config.lives ≤ s.config.lives ∧
    (applyOps s ops).config.maxLives = s.config.maxLives ∧
    (reset s).config.lives = s.config.maxLives := by
  have key : ∀ (l : List GameOp) (x : RunnerGameState),
      x.score ≤ (applyOps x l).score ∧
      (applyOps x l).config.lives ≤ x.config.lives ∧
      (applyOps x l).config.maxLives = x.config.maxLives := by
    intro l
    induction l with
    | nil => exact fun x => ⟨le_refl _, le_refl _, rfl⟩
    | cons op t ih =>
      intro x
      obtain ⟨a1, a2, a3⟩ := applyOp_monotone x op
      obtain ⟨b1, b2, b3⟩ := ih (applyOp x op)
      exact ⟨le_trans a1 b1, le_trans b2 a2, b3.trans a3⟩
  exact ⟨(key ops s).1, (key ops s).2.1, (key ops s).2.2, rfl⟩

/-- C9 (amended): `setPlayerPosition` clamps only the collision body width -
to the fixed bounds [0.06, 0.20], a subrange of [0, 1] - while the lateral
position is stored raw, exactly as supplied, and feeds the overlap
computation unclamped. -/
theorem body_width_clamped_position_raw (s : RunnerGameState) (a w m : ℚ) :
    (0.06 : ℚ) ≤ (setPlayerPosition s a w m).playerBodyWidth ∧
    (setPlayerPosition s a w m).playerBodyWidth ≤ 0.20 ∧
    (0 : ℚ) ≤ (setPlayerPosition s a w m).playerBodyWidth ∧
    (setPlayerPosition s a w m).playerBodyWidth ≤ 1 ∧
    (setPlayerPosition s a w m).playerX = a := by
  have h1 : (0.06 : ℚ) ≤ max 0.06 (min 0.20 (w * 0.8)) := le_max_left _ _
  have h2 : max (0.06 : ℚ) (min 0.20 (w * 0.8)) ≤ 0.20 :=
    max_le (by norm_num) (min_le_left _ _)
  exact ⟨h1, h2, le_trans (show (0 : ℚ) ≤ 0.06 by norm_num) h1,
    le_trans h2 (show (0.20 : ℚ) ≤ 1 by norm_num), rfl⟩

/-- C9 counterexample: the claim says the lateral position is defensively
clamped to [0, 1] before any collision check uses it.  Feeding 2 as the raw
center stores `playerX = 2`, outside [0, 1] - no clamping happens. -/
theorem player_position_not_clamped :
    (setPlayerPosition (init 800 600) 2 0.5 0.5).playerX = 2 ∧
    ¬((setPlayerPosition (init 800 600) 2 0.5 0.5).playerX ≤ 1) := by
  with_unfolding_all decide

lemma particles_len_le_of_reachable (s : RunnerGameState) (h : Reachable s) :
    s.particles.length ≤ MAX_PARTICLES := by
  induction h with
  | init w hh => simp [init, MAX_PARTICLES]
  | update s env dt t hs ih =>
    have hbound := (runObjects_frame t
      ((spawnPhase (invincibilityPhase (jumpPhase s t) t) env.spawnChoice
        t).config.speed * 0.006) env.colorRoll env.vel
      (spawnPhase (invincibilityPhase (jumpPhase s t) t) env.spawnChoice
        t).objects 0
      (spawnPhase (invincibilityPhase (jumpPhase s t) t) env.spawnChoice t)
      ⟨[], [], false, false⟩).2.2.2.2.2.2.2.2.1
    have hp3 : (spawnPhase (invincibilityPhase (jumpPhase s t) t)
        env.spawnChoice t).particles = s.particles := by
      rw [(spawnPhase_fields _ _ _).2.1, (invincibilityPhase_fields _ _).2.2.1,
        (jumpPhase_fields _ _).2.2.1]
    rw [update_def]
    dsimp only
    split_ifs with hlvl <;>
      (dsimp only [updateParticles, levelUp];
       rw [List.length_map];
       exact hbound (by rw [hp3]; exact ih))
  | setPlayerPosition s a b c hs ih =>
    rw [setPlayerPosition_particles]
    exact ih
  | triggerJump s t hs ih =>
    rw [triggerJump_particles]
    exact ih
  | updateDimensions s w hh hs ih => exact ih
  | reset s hs ih => simp [reset]

/-- C10: the particle pool obeys the same bounded-pooling discipline as the
object pool: every reachable state keeps at most 50 particle slots, a burst
iteration reuses an inactive slot before appending, a whole burst arriving
with the pool full of active particles is skipped with no state change, and
the per-frame particle pass deletes nothing - it only deactivates a live
particle exactly when its decayed life reaches 0 or below. -/
theorem particle_pool_discipline (s : RunnerGameState) :
    (Reachable s → s.particles.length ≤ MAX_PARTICLES) ∧
    (∀ (x : ℚ) (c : String) (v : ℚ × ℚ),
      s.particles.any (fun p => !p.active) = true →
      (spawnOneParticle s x c v).particles.length = s.particles.length) ∧
    (∀ (obj : RunnerObject) (cr : Nat → Nat) (vel : Nat → ℚ × ℚ),
      s.particles.any (fun p => !p.active) = false →
      MAX_PARTICLES ≤ s.particles.length →
      spawnCollectParticles s obj cr vel = s) ∧
    ((updateParticles s).particles.length = s.particles.length) ∧
    (∀ p : RunnerParticle, p.active = true →
      ((stepParticle p).active = false ↔ p.life - 0.035 ≤ 0)) ∧
    (∀ p : RunnerParticle, p.active = false → stepParticle p = p) :=
  ⟨fun hr => particles_len_le_of_reachable s hr,
    fun x c v h => spawnOneParticle_reuse s x c v h,
    fun obj cr vel h1 h2 => spawnCollectParticles_skip s obj cr vel h1 h2,
    updateParticles_len s,
    fun p hp => (stepParticle_active p hp).2,
    fun p hp => stepParticle_inactive p hp⟩

/-- Witness for C10: the bound at the constructed state, slot reuse at a
pool with one inactive particle, whole-burst skip at a full all-active pool,
and the life-based deactivation at a concrete particle. -/
theorem particle_pool_discipline_witness :
    ((init 800 600).particles.length ≤ MAX_PARTICLES) ∧
    (stInactiveParticle.particles.any (fun p => !p.active) = true ∧
      (spawnOneParticle stInactiveParticle 0 "#FFD700" (4, -3)).particles.length
        = stInactiveParticle.particles.length) ∧
    (stFullParticles.particles.any (fun p => !p.active) = false ∧
      MAX_PARTICLES ≤ stFullParticles.particles.length ∧
      spawnCollectParticles stFullParticles gem60 (fun _ => 0)
        (fun _ => (4, -3)) = stFullParticles) ∧
    (particle0.active = true ∧
      ((stepParticle particle0).active = false ↔
        particle0.life - 0.035 ≤ 0)) :=
  ⟨(particle_pool_discipline (init 800 600)).1 (Reachable.init 800 600),
    ⟨by with_unfolding_all decide,
      (particle_pool_discipline stInactiveParticle).2.1 0 "#FFD700" (4, -3)
        (by with_unfolding_all decide)⟩,
    ⟨by with_unfolding_all decide, by with_unfolding_all decide,
      (particle_pool_discipline stFullParticles).2.2.1 gem60 (fun _ => 0)
        (fun _ => (4, -3)) (by with_unfolding_all decide)
        (by with_unfolding_all decide)⟩,
    ⟨rfl, (particle_pool_discipline (init 800 600)).2.2.2.2.1 particle0 rfl⟩⟩

end RunnerGameState

end CameraGame
